import Mathlib

/-!
# esp32_bme280_mqtt: the connectivity and publishing core

A shallow embedding of `components/net_mqtt/net_mqtt.c`.

* A C string is the list of its bytes before the terminating NUL; a byte is
  held as the `Char` with that code point, so `strlen` is `List.length`.
* The event group `s_event_group` is its word of event bits (a `Nat`), with the
  FreeRTOS set, clear and wait-for-all operations on it.
* Every call the component makes into the platform (event group, Wi-Fi driver,
  MQTT client) is recorded, in program order, as a `Call`.
* A blocking function (`net_wifi_init_sta_blocking`, `net_mqtt_publish_blocking`)
  is a step function on a program counter, so that the event handlers can be
  interleaved with it.
-/

namespace NetMqtt

/-! ## C strings and `snprintf` -/

/-- Length of a C string. -/
def strlen (s : List Char) : Nat := s.length

/-- A variadic argument of `snprintf`: a string for `%s`, an unsigned value for `%02X`. -/
inductive Arg where
  | str (s : List Char)
  | uint (v : Nat)

/-- The conversion `%02X`: uppercase hexadecimal, zero padded to a width of at least two. -/
def fmt_02X (v : Nat) : List Char :=
  let ds := (Nat.toDigits 16 v).map Char.toUpper
  List.replicate (2 - ds.length) '0' ++ ds

/-- The text a printf format expands to, for the conversions this component
uses: `%%`, `%s` and `%02X`; every other character is copied. -/
def vformat : List Char → List Arg → List Char
  | [], _ => []
  | '%' :: '%' :: rest, args => '%' :: vformat rest args
  | '%' :: 's' :: rest, Arg.str s :: args => s ++ vformat rest args
  | '%' :: '0' :: '2' :: 'X' :: rest, Arg.uint v :: args => fmt_02X v ++ vformat rest args
  | c :: rest, args => c :: vformat rest args

/-- Largest value of the C type `int` on the target. -/
def INT_MAX : Nat := 2147483647

/-- The call `snprintf(buf, size, fmt, ...)`: the buffer receives at most
`size - 1` bytes of the expansion, and the value returned is the length of the
whole expansion (negative when that length is not an `int`). -/
def snprintf (size : Nat) (fmt : List Char) (args : List Arg) : List Char × Int :=
  let full := vformat fmt args
  (full.take (size - 1), if full.length ≤ INT_MAX then (full.length : Int) else -1)

/-! ## Configuration and hardware inputs -/

/-- The `CONFIG_*` options the component reads. -/
structure Config where
  CONFIG_DEVICE_NAME : List Char
  CONFIG_MQTT_STATE_TOPIC : List Char
  CONFIG_HA_DISCOVERY_PREFIX : List Char
  CONFIG_HA_DISCOVERY_ENABLE : Bool

/-- The station hardware address `uint8_t mac[6]` as `esp_read_mac` leaves it. -/
abbrev Mac := Fin 6 → Fin 256

/-! ## Helpers -/

/-- The function `get_node_id(out, out_len)`: the contents of `out` afterwards. -/
def get_node_id (CONFIG_DEVICE_NAME : List Char) (mac : Mac) (out_len : Nat) : List Char :=
  if strlen CONFIG_DEVICE_NAME > 0 then
    (snprintf out_len "%s".toList [Arg.str CONFIG_DEVICE_NAME]).1
  else
    (snprintf out_len "esp32-bme280-%02X%02X%02X".toList
      [Arg.uint (mac 3), Arg.uint (mac 4), Arg.uint (mac 5)]).1

/-! ## Platform calls and the component's static state -/

/-- An event base of the default event loop (`esp_event_base_t`). -/
inductive esp_event_base_t where
  | WIFI_EVENT
  | IP_EVENT
  | other (tag : Nat)
  deriving DecidableEq, Repr

/-- A call into the platform, with the arguments the component passes. -/
inductive Call where
  | xEventGroupSetBits (mask : Nat)
  | xEventGroupClearBits (mask : Nat)
  | xEventGroupWaitBits (mask : Nat)
  | esp_wifi_connect
  | esp_mqtt_client_publish (client : Option Nat) (topic data : List Char)
      (len qos : Int) (retain : Bool)
  | nvs_flash_init
  | esp_netif_init
  | esp_event_loop_create_default
  | esp_netif_create_default_wifi_sta
  | esp_event_handler_register (event_base : esp_event_base_t) (event_id : Int)
  | esp_wifi_init
  | esp_wifi_set_mode
  | esp_wifi_set_config
  | esp_wifi_start
  deriving DecidableEq, Repr

/-- The file-scope variables: the event bits of `s_event_group`, the client
handle `s_mqtt` and the interface handle `s_netif` (`none` is `NULL`). -/
structure NetState where
  s_event_group : Nat
  s_mqtt : Option Nat
  s_netif : Option Nat
  deriving DecidableEq, Repr

def BIT0 : Nat := 1
def BIT1 : Nat := 2
def WIFI_GOT_IP_BIT : Nat := BIT0
def MQTT_CONNECTED_BIT : Nat := BIT1

/-- Effect of `xEventGroupSetBits` on the event bits: `uxEventBits |= uxBitsToSet`. -/
def xEventGroupSetBits (bits mask : Nat) : Nat := bits ||| mask

/-- Effect of `xEventGroupClearBits` on the event bits:
`uxEventBits &= ~uxBitsToClear`, on a 32-bit `EventBits_t`. -/
def xEventGroupClearBits (bits mask : Nat) : Nat := bits &&& (0xFFFFFFFF ^^^ mask)

/-- The condition `xEventGroupWaitBits(.., mask, pdFALSE, pdTRUE, ..)` waits
for: all bits of `mask` are set. -/
def allBitsSet (bits mask : Nat) : Bool := (bits &&& mask) == mask

/-- The address-acquired readiness flag. -/
def hasAddress (s : NetState) : Bool := allBitsSet s.s_event_group WIFI_GOT_IP_BIT

/-- The session-connected readiness flag. -/
def connected (s : NetState) : Bool := allBitsSet s.s_event_group MQTT_CONNECTED_BIT

def ESP_OK : Int := 0
def ESP_FAIL : Int := -1
def ESP_ERR_INVALID_STATE : Int := 0x103

def WIFI_EVENT_STA_START : Int := 2
def WIFI_EVENT_STA_DISCONNECTED : Int := 5
def IP_EVENT_STA_GOT_IP : Int := 0
def ESP_EVENT_ANY_ID : Int := -1
def MQTT_EVENT_CONNECTED : Int := 1
def MQTT_EVENT_DISCONNECTED : Int := 2

/-! ## Home Assistant discovery -/

/-- The function `ha_publish_discovery`: the calls it makes, given the value of `s_mqtt`. -/
def ha_publish_discovery (cfg : Config) (mac : Mac) (s_mqtt : Option Nat) : List Call :=
  if cfg.CONFIG_HA_DISCOVERY_ENABLE then
    let node_id := get_node_id cfg.CONFIG_DEVICE_NAME mac 64
    let dev_name := (snprintf 96 "sensor %s".toList [Arg.str node_id]).1
    let state_topic := cfg.CONFIG_MQTT_STATE_TOPIC
    -- Temperature
    let topic := (snprintf 160 "%s/sensor/%s_temperature/config".toList
      [Arg.str cfg.CONFIG_HA_DISCOVERY_PREFIX, Arg.str node_id]).1
    let r := snprintf 1024
      ("\x7b" ++
       "\"name\":\"%s Temperature\"," ++
       "\"uniq_id\":\"%s_temperature\"," ++
       "\"stat_t\":\"%s\"," ++
       "\"unit_of_meas\":\"\xC3\x82\xC2\xB0C\"," ++
       "\"dev_cla\":\"temperature\"," ++
       "\"val_tpl\":\"\x7b\x7b value_json.temperature \x7d\x7d\"," ++
       "\"dev\":\x7b" ++
          "\"ids\":[\"%s\"]," ++
          "\"name\":\"%s\"," ++
          "\"mdl\":\"BME280\"," ++
          "\"mf\":\"Bosch\"" ++
       "\x7d" ++
       "\x7d").toList
      [Arg.str dev_name, Arg.str node_id, Arg.str state_topic,
       Arg.str node_id, Arg.str dev_name]
    let c1 := if r.2 > 0 ∧ r.2 < 1024 then
        [Call.esp_mqtt_client_publish s_mqtt topic r.1 0 1 true] else []
    -- Pressure
    let topic := (snprintf 160 "%s/sensor/%s_pressure/config".toList
      [Arg.str cfg.CONFIG_HA_DISCOVERY_PREFIX, Arg.str node_id]).1
    let r := snprintf 1024
      ("\x7b" ++
       "\"name\":\"%s Pressure\"," ++
       "\"uniq_id\":\"%s_pressure\"," ++
       "\"stat_t\":\"%s\"," ++
       "\"unit_of_meas\":\"hPa\"," ++
       "\"dev_cla\":\"pressure\"," ++
       "\"val_tpl\":\"\x7b\x7b value_json.pressure \x7d\x7d\"," ++
       "\"dev\":\x7b" ++
          "\"ids\":[\"%s\"]," ++
          "\"name\":\"%s\"," ++
          "\"mdl\":\"BME280\"," ++
          "\"mf\":\"Bosch\"" ++
       "\x7d" ++
       "\x7d").toList
      [Arg.str dev_name, Arg.str node_id, Arg.str state_topic,
       Arg.str node_id, Arg.str dev_name]
    let c2 := if r.2 > 0 ∧ r.2 < 1024 then
        [Call.esp_mqtt_client_publish s_mqtt topic r.1 0 1 true] else []
    -- Humidity
    let topic := (snprintf 160 "%s/sensor/%s_humidity/config".toList
      [Arg.str cfg.CONFIG_HA_DISCOVERY_PREFIX, Arg.str node_id]).1
    let r := snprintf 1024
      ("\x7b" ++
       "\"name\":\"%s Humidity\"," ++
       "\"uniq_id\":\"%s_humidity\"," ++
       "\"stat_t\":\"%s\"," ++
       "\"unit_of_meas\":\"%%\"," ++
       "\"dev_cla\":\"humidity\"," ++
       "\"val_tpl\":\"\x7b\x7b value_json.humidity \x7d\x7d\"," ++
       "\"dev\":\x7b" ++
          "\"ids\":[\"%s\"]," ++
          "\"name\":\"%s\"," ++
          "\"mdl\":\"BME280\"," ++
          "\"mf\":\"Bosch\"" ++
       "\x7d" ++
       "\x7d").toList
      [Arg.str dev_name, Arg.str node_id, Arg.str state_topic,
       Arg.str node_id, Arg.str dev_name]
    let c3 := if r.2 > 0 ∧ r.2 < 1024 then
        [Call.esp_mqtt_client_publish s_mqtt topic r.1 0 1 true] else []
    c1 ++ c2 ++ c3
  else
    []

/-! ## Event handlers -/

/-- The function `wifi_event_handler`: the state afterwards and the calls made. -/
def wifi_event_handler (event_base : esp_event_base_t) (event_id : Int) (s : NetState) :
    NetState × List Call :=
  if event_base = esp_event_base_t.WIFI_EVENT ∧ event_id = WIFI_EVENT_STA_START then
    (s, [Call.esp_wifi_connect])
  else if event_base = esp_event_base_t.WIFI_EVENT ∧ event_id = WIFI_EVENT_STA_DISCONNECTED then
    -- Clear IP bit and reconnect
    ({ s with s_event_group := xEventGroupClearBits s.s_event_group WIFI_GOT_IP_BIT },
     [Call.xEventGroupClearBits WIFI_GOT_IP_BIT, Call.esp_wifi_connect])
  else if event_base = esp_event_base_t.IP_EVENT ∧ event_id = IP_EVENT_STA_GOT_IP then
    ({ s with s_event_group := xEventGroupSetBits s.s_event_group WIFI_GOT_IP_BIT },
     [Call.xEventGroupSetBits WIFI_GOT_IP_BIT])
  else
    (s, [])

/-- The function `mqtt_event_handler`: the state afterwards and the calls made. -/
def mqtt_event_handler (cfg : Config) (mac : Mac) (event_id : Int) (s : NetState) :
    NetState × List Call :=
  if event_id = MQTT_EVENT_CONNECTED then
    let s1 := { s with s_event_group := xEventGroupSetBits s.s_event_group MQTT_CONNECTED_BIT }
    (s1, Call.xEventGroupSetBits MQTT_CONNECTED_BIT :: ha_publish_discovery cfg mac s1.s_mqtt)
  else if event_id = MQTT_EVENT_DISCONNECTED then
    ({ s with s_event_group := xEventGroupClearBits s.s_event_group MQTT_CONNECTED_BIT },
     [Call.xEventGroupClearBits MQTT_CONNECTED_BIT])
  else
    (s, [])

/-! ## Public API

A blocking function is a step function on its program counter: one step runs
the function up to its next suspension point or to its return. While the
function is suspended in `xEventGroupWaitBits(.., portMAX_DELAY)` a step leaves
it there unless the awaited bit is set. -/

/-- Where a call of `net_mqtt_publish_blocking` stands: not yet started,
suspended in `xEventGroupWaitBits`, resumed and about to call
`esp_mqtt_client_publish`, or returned with a value. -/
inductive PublishPc where
  | entry
  | wait
  | send
  | returned (rc : Int)
  deriving DecidableEq, Repr

/-- The function `net_mqtt_publish_blocking(topic, payload, qos, retain)`;
`msg_id` is what `esp_mqtt_client_publish` returns when it is called. -/
def net_mqtt_publish_blocking (topic payload : List Char) (qos : Int) (retain : Bool)
    (msg_id : Int) (pc : PublishPc) (s : NetState) : PublishPc × NetState × List Call :=
  match pc with
  | PublishPc.entry =>
    if s.s_mqtt = none then (PublishPc.returned ESP_ERR_INVALID_STATE, s, [])
    else
      -- wait until connected (auto reconnect will set bit again)
      (PublishPc.wait, s, [Call.xEventGroupWaitBits MQTT_CONNECTED_BIT])
  | PublishPc.wait =>
    if allBitsSet s.s_event_group MQTT_CONNECTED_BIT then (PublishPc.send, s, [])
    else (PublishPc.wait, s, [])
  | PublishPc.send =>
    (PublishPc.returned (if msg_id ≥ 0 then ESP_OK else ESP_FAIL), s,
     [Call.esp_mqtt_client_publish s.s_mqtt topic payload 0 qos retain])
  | PublishPc.returned rc => (PublishPc.returned rc, s, [])

/-- What the platform returns to `net_wifi_init_sta_blocking` from each call it makes. -/
structure InitEnv where
  nvs_flash_init : Int
  esp_netif_init : Int
  esp_event_loop_create_default : Int
  esp_netif_create_default_wifi_sta : Option Nat
  esp_event_handler_register : esp_event_base_t → Int → Int
  esp_wifi_init : Int
  esp_wifi_set_mode : Int
  esp_wifi_set_config : Int
  esp_wifi_start : Int

/-- Where a call of `net_wifi_init_sta_blocking` stands; `aborted` is the
state `ESP_ERROR_CHECK` leaves the program in when its argument is not
`ESP_OK`: in a build with assertions enabled, the default, it prints the
error and calls `abort()`, which does not return. -/
inductive InitPc where
  | entry
  | wait
  | returned (rc : Int)
  | aborted
  deriving DecidableEq, Repr

/-- The function `net_wifi_init_sta_blocking`. -/
def net_wifi_init_sta_blocking (env : InitEnv) (pc : InitPc) (s : NetState) :
    InitPc × NetState × List Call :=
  match pc with
  | InitPc.entry =>
    let log := [Call.nvs_flash_init]
    if env.nvs_flash_init ≠ ESP_OK then (InitPc.aborted, s, log) else
    let log := log ++ [Call.esp_netif_init]
    if env.esp_netif_init ≠ ESP_OK then (InitPc.aborted, s, log) else
    let log := log ++ [Call.esp_event_loop_create_default]
    if env.esp_event_loop_create_default ≠ ESP_OK then (InitPc.aborted, s, log) else
    let s := { s with s_netif := env.esp_netif_create_default_wifi_sta }
    let log := log ++ [Call.esp_netif_create_default_wifi_sta]
    let log := log ++
      [Call.esp_event_handler_register esp_event_base_t.WIFI_EVENT ESP_EVENT_ANY_ID]
    if env.esp_event_handler_register esp_event_base_t.WIFI_EVENT ESP_EVENT_ANY_ID ≠ ESP_OK
    then (InitPc.aborted, s, log) else
    let log := log ++
      [Call.esp_event_handler_register esp_event_base_t.IP_EVENT IP_EVENT_STA_GOT_IP]
    if env.esp_event_handler_register esp_event_base_t.IP_EVENT IP_EVENT_STA_GOT_IP ≠ ESP_OK
    then (InitPc.aborted, s, log) else
    let log := log ++ [Call.esp_wifi_init]
    if env.esp_wifi_init ≠ ESP_OK then (InitPc.aborted, s, log) else
    let log := log ++ [Call.esp_wifi_set_mode]
    if env.esp_wifi_set_mode ≠ ESP_OK then (InitPc.aborted, s, log) else
    let log := log ++ [Call.esp_wifi_set_config]
    if env.esp_wifi_set_config ≠ ESP_OK then (InitPc.aborted, s, log) else
    let log := log ++ [Call.esp_wifi_start]
    if env.esp_wifi_start ≠ ESP_OK then (InitPc.aborted, s, log) else
    -- wait for IP
    (InitPc.wait, s, log ++ [Call.xEventGroupWaitBits WIFI_GOT_IP_BIT])
  | InitPc.wait =>
    if allBitsSet s.s_event_group WIFI_GOT_IP_BIT then (InitPc.returned ESP_OK, s, [])
    else (InitPc.wait, s, [])
  | InitPc.returned rc => (InitPc.returned rc, s, [])
  | InitPc.aborted => (InitPc.aborted, s, [])

/-! ## Tasks and events

The caller of a blocking function runs in one task, the event handlers in the
platform's event tasks; a schedule is the order in which they take steps. -/

/-- Who made a call: the task inside the blocking function, or an event handler. -/
inductive Origin where
  | caller
  | handler
  deriving DecidableEq, Repr

/-- One scheduling decision: the calling task takes a step (`ret` is what the
platform returns to it in that step), or an event is dispatched to its handler. -/
inductive Sched where
  | task (ret : Int)
  | mqtt_event (event_id : Int)
  | wifi_event (event_base : esp_event_base_t) (event_id : Int)
  deriving DecidableEq, Repr

/-- The calling task's program counter, the component's state, and every call made so far. -/
structure Sys (Pc : Type) where
  pc : Pc
  net : NetState
  log : List (Origin × Call)
  deriving DecidableEq

/-- One scheduling decision applied to the system. -/
def sys_step {Pc : Type} (task : Int → Pc → NetState → Pc × NetState × List Call)
    (cfg : Config) (mac : Mac) (st : Sys Pc) : Sched → Sys Pc
  | Sched.task ret =>
    let r := task ret st.pc st.net
    { pc := r.1, net := r.2.1, log := st.log ++ r.2.2.map (fun c => (Origin.caller, c)) }
  | Sched.mqtt_event event_id =>
    let r := mqtt_event_handler cfg mac event_id st.net
    { pc := st.pc, net := r.1, log := st.log ++ r.2.map (fun c => (Origin.handler, c)) }
  | Sched.wifi_event event_base event_id =>
    let r := wifi_event_handler event_base event_id st.net
    { pc := st.pc, net := r.1, log := st.log ++ r.2.map (fun c => (Origin.handler, c)) }

/-- A whole schedule applied to the system, first decision first. -/
def sys_run {Pc : Type} (task : Int → Pc → NetState → Pc × NetState × List Call)
    (cfg : Config) (mac : Mac) (st : Sys Pc) (sched : List Sched) : Sys Pc :=
  sched.foldl (sys_step task cfg mac) st

/-- The calls of a log that the calling task made, in order. -/
def callerCalls (log : List (Origin × Call)) : List Call :=
  (log.filter (fun e => e.1 = Origin.caller)).map (fun e => e.2)

/-- Every call that `net_wifi_init_sta_blocking` guards with `ESP_ERROR_CHECK`
returned `ESP_OK`. -/
def InitEnv.allOk (env : InitEnv) : Bool :=
  decide (env.nvs_flash_init = ESP_OK)
  && decide (env.esp_netif_init = ESP_OK)
  && decide (env.esp_event_loop_create_default = ESP_OK)
  && decide (env.esp_event_handler_register esp_event_base_t.WIFI_EVENT ESP_EVENT_ANY_ID = ESP_OK)
  && decide (env.esp_event_handler_register esp_event_base_t.IP_EVENT IP_EVENT_STA_GOT_IP
      = ESP_OK)
  && decide (env.esp_wifi_init = ESP_OK)
  && decide (env.esp_wifi_set_mode = ESP_OK)
  && decide (env.esp_wifi_set_config = ESP_OK)
  && decide (env.esp_wifi_start = ESP_OK)

/-- The calls of `net_wifi_init_sta_blocking` in program order, each once, up
to and including the wait for the address lease. -/
def init_calls : List Call :=
  [Call.nvs_flash_init,
   Call.esp_netif_init,
   Call.esp_event_loop_create_default,
   Call.esp_netif_create_default_wifi_sta,
   Call.esp_event_handler_register esp_event_base_t.WIFI_EVENT ESP_EVENT_ANY_ID,
   Call.esp_event_handler_register esp_event_base_t.IP_EVENT IP_EVENT_STA_GOT_IP,
   Call.esp_wifi_init,
   Call.esp_wifi_set_mode,
   Call.esp_wifi_set_config,
   Call.esp_wifi_start,
   Call.xEventGroupWaitBits WIFI_GOT_IP_BIT]

/-- Whether a call of `net_mqtt_publish_blocking` has come back from its wait. -/
def PublishPc.released : PublishPc → Bool
  | PublishPc.entry => false
  | PublishPc.wait => false
  | PublishPc.send => true
  | PublishPc.returned _ => true

/-- The calls a call of `net_mqtt_publish_blocking` on an existing session
has made by the time it stands at `pc`: nothing, then the wait, then one publish. -/
def publishCalls (client : Option Nat) (topic payload : List Char) (qos : Int) (retain : Bool) :
    PublishPc → List Call
  | PublishPc.entry => []
  | PublishPc.wait => [Call.xEventGroupWaitBits MQTT_CONNECTED_BIT]
  | PublishPc.send => [Call.xEventGroupWaitBits MQTT_CONNECTED_BIT]
  | PublishPc.returned _ =>
    [Call.xEventGroupWaitBits MQTT_CONNECTED_BIT,
     Call.esp_mqtt_client_publish client topic payload 0 qos retain]

/-- The handler reactions to a sequence of link events, first event first:
the state afterwards and the calls made. -/
def run_wifi_events : List (esp_event_base_t × Int) → NetState → NetState × List Call
  | [], s => (s, [])
  | e :: events, s =>
    let r := wifi_event_handler e.1 e.2 s
    let rest := run_wifi_events events r.1
    (rest.1, r.2 ++ rest.2)

/-- The handler reactions to a sequence of session events, first event first:
the state afterwards and the calls made. -/
def run_mqtt_events (cfg : Config) (mac : Mac) : List Int → NetState → NetState × List Call
  | [], s => (s, [])
  | e :: events, s =>
    let r := mqtt_event_handler cfg mac e s
    let rest := run_mqtt_events cfg mac events r.1
    (rest.1, r.2 ++ rest.2)

/-! ## The discovery announcements as the specification words them -/

/-- The three measurement classes, in announcement order. -/
inductive SensorClass where
  | temperature
  | pressure
  | humidity
  deriving DecidableEq, Repr

/-- The class as written in topics and payloads. -/
def SensorClass.name : SensorClass → List Char
  | SensorClass.temperature => "temperature".toList
  | SensorClass.pressure => "pressure".toList
  | SensorClass.humidity => "humidity".toList

/-- The class title appended to the device name. -/
def SensorClass.title : SensorClass → List Char
  | SensorClass.temperature => "Temperature".toList
  | SensorClass.pressure => "Pressure".toList
  | SensorClass.humidity => "Humidity".toList

/-- The fixed unit string of the class, with the bytes the source file holds. -/
def SensorClass.unit : SensorClass → List Char
  | SensorClass.temperature => "\xC3\x82\xC2\xB0C".toList
  | SensorClass.pressure => "hPa".toList
  | SensorClass.humidity => "%".toList

/-- All classes, in the order temperature, pressure, humidity. -/
def SensorClass.all : List SensorClass :=
  [SensorClass.temperature, SensorClass.pressure, SensorClass.humidity]

/-- The device name: `"sensor " + deviceId`. -/
def deviceName (deviceId : List Char) : List Char := "sensor ".toList ++ deviceId

/-- The address `<discoveryPrefix>/sensor/<deviceId>_<class>/config`. -/
def discoveryTopic (discoveryPrefix deviceId : List Char) (c : SensorClass) : List Char :=
  discoveryPrefix ++ "/sensor/".toList ++ deviceId ++ "_".toList ++ c.name ++ "/config".toList

/-- A text between double quotes, copied as it is. -/
def jsonText (s : List Char) : List Char := "\"".toList ++ s ++ "\"".toList

/-- One member `"key":value` of a compact JSON object. -/
def jsonMember (key value : List Char) : List Char := jsonText key ++ ":".toList ++ value

/-- A compact JSON object: members separated by commas, no blanks. -/
def jsonObject (members : List (List Char)) : List Char :=
  "\x7b".toList ++ List.intercalate ",".toList members ++ "\x7d".toList

/-- A compact JSON array. -/
def jsonArray (items : List (List Char)) : List Char :=
  "[".toList ++ List.intercalate ",".toList items ++ "]".toList

/-- The discovery payload of a class, field by field in the listed order. -/
def discoveryPayload (deviceId stateTopic : List Char) (c : SensorClass) : List Char :=
  jsonObject
    [ jsonMember "name".toList (jsonText (deviceName deviceId ++ " ".toList ++ c.title)),
      jsonMember "uniq_id".toList (jsonText (deviceId ++ "_".toList ++ c.name)),
      jsonMember "stat_t".toList (jsonText stateTopic),
      jsonMember "unit_of_meas".toList (jsonText c.unit),
      jsonMember "dev_cla".toList (jsonText c.name),
      jsonMember "val_tpl".toList
        (jsonText ("\x7b\x7b value_json.".toList ++ c.name ++ " \x7d\x7d".toList)),
      jsonMember "dev".toList
        (jsonObject
          [ jsonMember "ids".toList (jsonArray [jsonText deviceId]),
            jsonMember "name".toList (jsonText (deviceName deviceId)),
            jsonMember "mdl".toList (jsonText "BME280".toList),
            jsonMember "mf".toList (jsonText "Bosch".toList) ]) ]

/-- The announcement of a class as a publish call: the topic as the 160-byte
topic buffer holds it, the whole payload, length 0 (the payload is
NUL-terminated), quality of service 1, retained. -/
def announcement (s_mqtt : Option Nat) (discoveryPrefix deviceId stateTopic : List Char)
    (c : SensorClass) : Call :=
  Call.esp_mqtt_client_publish s_mqtt ((discoveryTopic discoveryPrefix deviceId c).take 159)
    (discoveryPayload deviceId stateTopic c) 0 1 true

/-- The uppercase hexadecimal digit of a value below sixteen. -/
def hexDigit (d : Nat) : Char := "0123456789ABCDEF".toList.getD d '0'

/-- A byte as exactly two uppercase hexadecimal digits, zero padded. -/
def hexByte (b : Nat) : List Char := [hexDigit (b / 16), hexDigit (b % 16)]

/-! ## Event bits -/

theorem allBitsSet_two_pow (bits k : Nat) : allBitsSet bits (2 ^ k) = bits.testBit k := by
  unfold allBitsSet
  cases h : bits.testBit k with
  | true =>
    rw [beq_iff_eq]
    apply Nat.eq_of_testBit_eq
    intro i
    rw [Nat.testBit_and, Nat.testBit_two_pow]
    by_cases hki : k = i
    · subst hki; simp [h]
    · simp [hki]
  | false =>
    rw [beq_eq_false_iff_ne]
    intro heq
    have h1 : (bits &&& 2 ^ k).testBit k = (2 ^ k).testBit k := by rw [heq]
    rw [Nat.testBit_and, Nat.testBit_two_pow_self, h] at h1
    simp at h1

theorem testBit_set (bits k i : Nat) :
    (xEventGroupSetBits bits (2 ^ k)).testBit i = (bits.testBit i || decide (k = i)) := by
  unfold xEventGroupSetBits
  rw [Nat.testBit_or, Nat.testBit_two_pow]

theorem testBit_clear (bits k i : Nat) (hk : k < 32) :
    (xEventGroupClearBits bits (2 ^ k)).testBit i
      = (bits.testBit i && decide (i < 32) && !decide (k = i)) := by
  unfold xEventGroupClearBits
  have h32 : (0xFFFFFFFF : Nat) = 2 ^ 32 - 1 := by norm_num
  rw [h32, Nat.testBit_and, Nat.testBit_xor, Nat.testBit_two_pow_sub_one, Nat.testBit_two_pow]
  by_cases hki : k = i
  · subst hki; simp [hk]
  · by_cases hi : i < 32 <;> simp [hki, hi]

theorem WIFI_GOT_IP_BIT_eq : WIFI_GOT_IP_BIT = 2 ^ 0 := rfl

theorem MQTT_CONNECTED_BIT_eq : MQTT_CONNECTED_BIT = 2 ^ 1 := rfl

theorem allBitsSet_set_wifi_wifi (bits : Nat) :
    allBitsSet (xEventGroupSetBits bits WIFI_GOT_IP_BIT) WIFI_GOT_IP_BIT = true := by
  rw [WIFI_GOT_IP_BIT_eq, allBitsSet_two_pow, testBit_set]
  simp

theorem allBitsSet_clear_wifi_wifi (bits : Nat) :
    allBitsSet (xEventGroupClearBits bits WIFI_GOT_IP_BIT) WIFI_GOT_IP_BIT = false := by
  rw [WIFI_GOT_IP_BIT_eq, allBitsSet_two_pow, testBit_clear _ _ _ (by decide)]
  simp

theorem allBitsSet_set_wifi_mqtt (bits : Nat) :
    allBitsSet (xEventGroupSetBits bits WIFI_GOT_IP_BIT) MQTT_CONNECTED_BIT
      = allBitsSet bits MQTT_CONNECTED_BIT := by
  rw [WIFI_GOT_IP_BIT_eq, MQTT_CONNECTED_BIT_eq, allBitsSet_two_pow, allBitsSet_two_pow,
    testBit_set]
  simp

theorem allBitsSet_clear_wifi_mqtt (bits : Nat) :
    allBitsSet (xEventGroupClearBits bits WIFI_GOT_IP_BIT) MQTT_CONNECTED_BIT
      = allBitsSet bits MQTT_CONNECTED_BIT := by
  rw [WIFI_GOT_IP_BIT_eq, MQTT_CONNECTED_BIT_eq, allBitsSet_two_pow, allBitsSet_two_pow,
    testBit_clear _ _ _ (by decide)]
  simp

theorem allBitsSet_set_mqtt_mqtt (bits : Nat) :
    allBitsSet (xEventGroupSetBits bits MQTT_CONNECTED_BIT) MQTT_CONNECTED_BIT = true := by
  rw [MQTT_CONNECTED_BIT_eq, allBitsSet_two_pow, testBit_set]
  simp

theorem allBitsSet_clear_mqtt_mqtt (bits : Nat) :
    allBitsSet (xEventGroupClearBits bits MQTT_CONNECTED_BIT) MQTT_CONNECTED_BIT = false := by
  rw [MQTT_CONNECTED_BIT_eq, allBitsSet_two_pow, testBit_clear _ _ _ (by decide)]
  simp

theorem allBitsSet_set_mqtt_wifi (bits : Nat) :
    allBitsSet (xEventGroupSetBits bits MQTT_CONNECTED_BIT) WIFI_GOT_IP_BIT
      = allBitsSet bits WIFI_GOT_IP_BIT := by
  rw [WIFI_GOT_IP_BIT_eq, MQTT_CONNECTED_BIT_eq, allBitsSet_two_pow, allBitsSet_two_pow,
    testBit_set]
  simp

theorem allBitsSet_clear_mqtt_wifi (bits : Nat) :
    allBitsSet (xEventGroupClearBits bits MQTT_CONNECTED_BIT) WIFI_GOT_IP_BIT
      = allBitsSet bits WIFI_GOT_IP_BIT := by
  rw [WIFI_GOT_IP_BIT_eq, MQTT_CONNECTED_BIT_eq, allBitsSet_two_pow, allBitsSet_two_pow,
    testBit_clear _ _ _ (by decide)]
  simp

/-! ## Formatting -/

set_option maxRecDepth 100000 in
theorem fmt_02X_lt (b : Nat) (hb : b < 256) : fmt_02X b = hexByte b := by
  revert b
  decide

theorem fmt_02X_byte (b : Fin 256) : fmt_02X b.val = hexByte b.val :=
  fmt_02X_lt b.val b.isLt

theorem snprintf_fst (size : Nat) (fmt : List Char) (args : List Arg) :
    (snprintf size fmt args).1 = (vformat fmt args).take (size - 1) := rfl

theorem snprintf_fst_of_le (size : Nat) (fmt : List Char) (args : List Arg)
    (h : (vformat fmt args).length ≤ size - 1) :
    (snprintf size fmt args).1 = vformat fmt args := by
  rw [snprintf_fst, List.take_of_length_le h]

/-- The test `n > 0 && n < (int)sizeof(payload)` on the value `snprintf` returns. -/
theorem snprintf_snd_fits (size : Nat) (fmt : List Char) (args : List Arg) :
    ((snprintf size fmt args).2 > 0 ∧ (snprintf size fmt args).2 < 1024)
      ↔ (0 < (vformat fmt args).length ∧ (vformat fmt args).length < 1024) := by
  unfold snprintf INT_MAX
  simp only
  split_ifs with h
  · omega
  · omega

theorem vformat_node_id_name (name : List Char) :
    vformat "%s".toList [Arg.str name] = name := by
  simp [vformat]

theorem vformat_node_id_mac (a b c : Nat) :
    vformat "esp32-bme280-%02X%02X%02X".toList [Arg.uint a, Arg.uint b, Arg.uint c]
      = "esp32-bme280-".toList ++ fmt_02X a ++ fmt_02X b ++ fmt_02X c := by
  simp [vformat]

theorem get_node_id_eq (name : List Char) (mac : Mac) :
    get_node_id name mac 64 =
      if name ≠ [] then name.take 63
      else "esp32-bme280-".toList ++ hexByte (mac 3) ++ hexByte (mac 4) ++ hexByte (mac 5) := by
  unfold get_node_id strlen
  by_cases h : name = []
  · subst h
    have hlen : ("esp32-bme280-".toList ++ hexByte (mac 3) ++ hexByte (mac 4)
        ++ hexByte (mac 5)).length ≤ 64 - 1 := by simp [hexByte]
    simp only [List.length_nil, gt_iff_lt, lt_self_iff_false, if_false, ne_eq, not_true_eq_false]
    rw [snprintf_fst, vformat_node_id_mac, fmt_02X_byte, fmt_02X_byte, fmt_02X_byte,
      List.take_of_length_le hlen]
  · have hpos : 0 < name.length := List.length_pos.mpr h
    simp only [gt_iff_lt, hpos, if_true, ne_eq, h, not_false_eq_true]
    rw [snprintf_fst, vformat_node_id_name]

theorem get_node_id_length (name : List Char) (mac : Mac) :
    (get_node_id name mac 64).length ≤ 63 := by
  rw [get_node_id_eq]
  split_ifs with h
  · rw [List.length_take]; omega
  · simp [hexByte]

/-! ## Discovery rendering -/

theorem vformat_dev_name (node_id : List Char) :
    vformat "sensor %s".toList [Arg.str node_id] = deviceName node_id := by
  simp [vformat, deviceName]

theorem dev_name_eq (node_id : List Char) (h : node_id.length ≤ 63) :
    (snprintf 96 "sensor %s".toList [Arg.str node_id]).1 = deviceName node_id := by
  rw [snprintf_fst, vformat_dev_name]
  apply List.take_of_length_le
  simp [deviceName]
  omega

theorem vformat_topic_temperature (pfx node_id : List Char) :
    vformat "%s/sensor/%s_temperature/config".toList [Arg.str pfx, Arg.str node_id]
      = discoveryTopic pfx node_id SensorClass.temperature := by
  simp [vformat, discoveryTopic, SensorClass.name]

theorem vformat_topic_pressure (pfx node_id : List Char) :
    vformat "%s/sensor/%s_pressure/config".toList [Arg.str pfx, Arg.str node_id]
      = discoveryTopic pfx node_id SensorClass.pressure := by
  simp [vformat, discoveryTopic, SensorClass.name]

theorem vformat_topic_humidity (pfx node_id : List Char) :
    vformat "%s/sensor/%s_humidity/config".toList [Arg.str pfx, Arg.str node_id]
      = discoveryTopic pfx node_id SensorClass.humidity := by
  simp [vformat, discoveryTopic, SensorClass.name]

set_option maxRecDepth 100000 in
theorem vformat_payload_temperature (node_id state_topic : List Char) :
    vformat
      ("\x7b" ++
       "\"name\":\"%s Temperature\"," ++
       "\"uniq_id\":\"%s_temperature\"," ++
       "\"stat_t\":\"%s\"," ++
       "\"unit_of_meas\":\"\xC3\x82\xC2\xB0C\"," ++
       "\"dev_cla\":\"temperature\"," ++
       "\"val_tpl\":\"\x7b\x7b value_json.temperature \x7d\x7d\"," ++
       "\"dev\":\x7b" ++
          "\"ids\":[\"%s\"]," ++
          "\"name\":\"%s\"," ++
          "\"mdl\":\"BME280\"," ++
          "\"mf\":\"Bosch\"" ++
       "\x7d" ++
       "\x7d").toList
      [Arg.str (deviceName node_id), Arg.str node_id, Arg.str state_topic,
       Arg.str node_id, Arg.str (deviceName node_id)]
      = discoveryPayload node_id state_topic SensorClass.temperature := by
  simp [vformat, discoveryPayload, jsonObject, jsonMember, jsonText, jsonArray,
    SensorClass.name, SensorClass.title, SensorClass.unit, List.intercalate, List.intersperse]

set_option maxRecDepth 100000 in
theorem vformat_payload_pressure (node_id state_topic : List Char) :
    vformat
      ("\x7b" ++
       "\"name\":\"%s Pressure\"," ++
       "\"uniq_id\":\"%s_pressure\"," ++
       "\"stat_t\":\"%s\"," ++
       "\"unit_of_meas\":\"hPa\"," ++
       "\"dev_cla\":\"pressure\"," ++
       "\"val_tpl\":\"\x7b\x7b value_json.pressure \x7d\x7d\"," ++
       "\"dev\":\x7b" ++
          "\"ids\":[\"%s\"]," ++
          "\"name\":\"%s\"," ++
          "\"mdl\":\"BME280\"," ++
          "\"mf\":\"Bosch\"" ++
       "\x7d" ++
       "\x7d").toList
      [Arg.str (deviceName node_id), Arg.str node_id, Arg.str state_topic,
       Arg.str node_id, Arg.str (deviceName node_id)]
      = discoveryPayload node_id state_topic SensorClass.pressure := by
  simp [vformat, discoveryPayload, jsonObject, jsonMember, jsonText, jsonArray,
    SensorClass.name, SensorClass.title, SensorClass.unit, List.intercalate, List.intersperse]

set_option maxRecDepth 100000 in
theorem vformat_payload_humidity (node_id state_topic : List Char) :
    vformat
      ("\x7b" ++
       "\"name\":\"%s Humidity\"," ++
       "\"uniq_id\":\"%s_humidity\"," ++
       "\"stat_t\":\"%s\"," ++
       "\"unit_of_meas\":\"%%\"," ++
       "\"dev_cla\":\"humidity\"," ++
       "\"val_tpl\":\"\x7b\x7b value_json.humidity \x7d\x7d\"," ++
       "\"dev\":\x7b" ++
          "\"ids\":[\"%s\"]," ++
          "\"name\":\"%s\"," ++
          "\"mdl\":\"BME280\"," ++
          "\"mf\":\"Bosch\"" ++
       "\x7d" ++
       "\x7d").toList
      [Arg.str (deviceName node_id), Arg.str node_id, Arg.str state_topic,
       Arg.str node_id, Arg.str (deviceName node_id)]
      = discoveryPayload node_id state_topic SensorClass.humidity := by
  simp [vformat, discoveryPayload, jsonObject, jsonMember, jsonText, jsonArray,
    SensorClass.name, SensorClass.title, SensorClass.unit, List.intercalate, List.intersperse]

set_option maxRecDepth 100000 in
/-- The bytes of a payload that do not come from the identity or the state topic. -/
theorem discoveryPayload_length (deviceId stateTopic : List Char) (c : SensorClass) :
    (discoveryPayload deviceId stateTopic c).length
      = 4 * deviceId.length + stateTopic.length
          + (match c with
             | SensorClass.temperature => 219
             | SensorClass.pressure => 205
             | SensorClass.humidity => 203) := by
  cases c
  · rw [← vformat_payload_temperature]
    simp [vformat, deviceName]
    omega
  · rw [← vformat_payload_pressure]
    simp [vformat, deviceName]
    omega
  · rw [← vformat_payload_humidity]
    simp [vformat, deviceName]
    omega

theorem discoveryPayload_pos (deviceId stateTopic : List Char) (c : SensorClass) :
    0 < (discoveryPayload deviceId stateTopic c).length := by
  rw [discoveryPayload_length]
  cases c <;> simp

theorem discoveryPayload_injective (deviceId stateTopic : List Char) (c d : SensorClass)
    (h : discoveryPayload deviceId stateTopic c = discoveryPayload deviceId stateTopic d) :
    c = d := by
  have hl := congrArg List.length h
  rw [discoveryPayload_length, discoveryPayload_length] at hl
  cases c <;> cases d <;> first | rfl | (simp at hl)

/-- One rendering block of `ha_publish_discovery`: the payload is published
when, and only when, the whole rendering is shorter than the buffer. -/
theorem discovery_block (s_mqtt : Option Nat) (topic fmt : List Char) (args : List Arg)
    (payload : List Char) (hv : vformat fmt args = payload) (hpos : 0 < payload.length) :
    (if (snprintf 1024 fmt args).2 > 0 ∧ (snprintf 1024 fmt args).2 < 1024 then
        [Call.esp_mqtt_client_publish s_mqtt topic (snprintf 1024 fmt args).1 0 1 true]
      else [])
      = if payload.length < 1024 then
          [Call.esp_mqtt_client_publish s_mqtt topic payload 0 1 true]
        else [] := by
  have hiff := snprintf_snd_fits 1024 fmt args
  rw [hv] at hiff
  by_cases hlt : payload.length < 1024
  · have hfst : (snprintf 1024 fmt args).1 = payload := by
      rw [snprintf_fst_of_le] <;> rw [hv]
      omega
    rw [if_pos (hiff.mpr ⟨hpos, hlt⟩), if_pos hlt, hfst]
  · rw [if_neg (fun hc => hlt (hiff.mp hc).2), if_neg hlt]

/-- The whole of `ha_publish_discovery`: when discovery is enabled, the
announcements of the classes whose payload is shorter than 1024 bytes, in
class order; nothing otherwise. -/
theorem ha_publish_discovery_eq (cfg : Config) (mac : Mac) (s_mqtt : Option Nat) :
    ha_publish_discovery cfg mac s_mqtt =
      if cfg.CONFIG_HA_DISCOVERY_ENABLE then
        (SensorClass.all.filter (fun c =>
            decide ((discoveryPayload (get_node_id cfg.CONFIG_DEVICE_NAME mac 64)
              cfg.CONFIG_MQTT_STATE_TOPIC c).length < 1024))).map
          (announcement s_mqtt cfg.CONFIG_HA_DISCOVERY_PREFIX
            (get_node_id cfg.CONFIG_DEVICE_NAME mac 64) cfg.CONFIG_MQTT_STATE_TOPIC)
      else [] := by
  unfold ha_publish_discovery
  by_cases hen : cfg.CONFIG_HA_DISCOVERY_ENABLE = true
  · rw [if_pos hen, if_pos hen]
    simp only []
    rw [dev_name_eq _ (get_node_id_length _ _)]
    rw [discovery_block s_mqtt _ _ _ _ (vformat_payload_temperature _ _)
          (discoveryPayload_pos _ _ _),
        discovery_block s_mqtt _ _ _ _ (vformat_payload_pressure _ _)
          (discoveryPayload_pos _ _ _),
        discovery_block s_mqtt _ _ _ _ (vformat_payload_humidity _ _)
          (discoveryPayload_pos _ _ _)]
    rw [snprintf_fst, snprintf_fst, snprintf_fst, vformat_topic_temperature,
      vformat_topic_pressure, vformat_topic_humidity]
    by_cases h1 : (discoveryPayload (get_node_id cfg.CONFIG_DEVICE_NAME mac 64)
        cfg.CONFIG_MQTT_STATE_TOPIC SensorClass.temperature).length < 1024 <;>
    by_cases h2 : (discoveryPayload (get_node_id cfg.CONFIG_DEVICE_NAME mac 64)
        cfg.CONFIG_MQTT_STATE_TOPIC SensorClass.pressure).length < 1024 <;>
    by_cases h3 : (discoveryPayload (get_node_id cfg.CONFIG_DEVICE_NAME mac 64)
        cfg.CONFIG_MQTT_STATE_TOPIC SensorClass.humidity).length < 1024 <;>
    simp [SensorClass.all, List.filter_cons, announcement, h1, h2, h3]
  · rw [if_neg hen, if_neg hen]

/-! ## Link Manager reactions -/

theorem wifi_event_handler_connected (event_base : esp_event_base_t) (event_id : Int)
    (s : NetState) : connected (wifi_event_handler event_base event_id s).1 = connected s := by
  unfold wifi_event_handler
  split_ifs <;>
    simp [connected, allBitsSet_set_wifi_mqtt, allBitsSet_clear_wifi_mqtt]

theorem wifi_event_handler_handles (event_base : esp_event_base_t) (event_id : Int)
    (s : NetState) :
    (wifi_event_handler event_base event_id s).1.s_mqtt = s.s_mqtt
      ∧ (wifi_event_handler event_base event_id s).1.s_netif = s.s_netif := by
  unfold wifi_event_handler
  split_ifs <;> simp

theorem wifi_disconnected_hasAddress (s : NetState) :
    hasAddress (wifi_event_handler esp_event_base_t.WIFI_EVENT WIFI_EVENT_STA_DISCONNECTED s).1
      = false := by
  simp [wifi_event_handler, WIFI_EVENT_STA_DISCONNECTED, WIFI_EVENT_STA_START, hasAddress,
    allBitsSet_clear_wifi_wifi]

theorem wifi_got_ip_hasAddress (s : NetState) :
    hasAddress (wifi_event_handler esp_event_base_t.IP_EVENT IP_EVENT_STA_GOT_IP s).1
      = true := by
  simp [wifi_event_handler, hasAddress, allBitsSet_set_wifi_wifi]

theorem run_wifi_events_append (pre post : List (esp_event_base_t × Int)) (s : NetState) :
    (run_wifi_events (pre ++ post) s).1 = (run_wifi_events post (run_wifi_events pre s).1).1 := by
  induction pre generalizing s with
  | nil => rfl
  | cons e pre ih => simp [run_wifi_events, ih]

/-- Only an address-acquired event raises the address-acquired flag. -/
theorem wifi_event_handler_raises (event_base : esp_event_base_t) (event_id : Int)
    (s : NetState) (h0 : hasAddress s = false)
    (h1 : hasAddress (wifi_event_handler event_base event_id s).1 = true) :
    (event_base, event_id) = (esp_event_base_t.IP_EVENT, IP_EVENT_STA_GOT_IP) := by
  unfold wifi_event_handler at h1
  split_ifs at h1 with ha hb hc
  · simp [h0] at h1
  · simp [hasAddress, allBitsSet_clear_wifi_wifi] at h1
  · rw [hc.1, hc.2]
  · simp [h0] at h1

theorem run_wifi_events_raises (post : List (esp_event_base_t × Int)) (s : NetState)
    (h0 : hasAddress s = false) (h1 : hasAddress (run_wifi_events post s).1 = true) :
    (esp_event_base_t.IP_EVENT, IP_EVENT_STA_GOT_IP) ∈ post := by
  induction post generalizing s with
  | nil => simp [run_wifi_events, h0] at h1
  | cons e post ih =>
    simp only [run_wifi_events] at h1
    by_cases hs : hasAddress (wifi_event_handler e.1 e.2 s).1 = true
    · have := wifi_event_handler_raises e.1 e.2 s h0 hs
      simp [← this]
    · have := ih _ (by simpa using hs) h1
      exact List.mem_cons_of_mem _ this

/-- C4: the reactions of `wifi_event_handler`. An association-started event
issues exactly one association request and leaves the state alone; a
disassociated event clears the address-acquired flag and then issues exactly
one association request; an address-acquired event sets the flag and issues
no request; no link event changes the session-connected flag or a handle; any
other event changes nothing and calls nothing. So, after every sequence of
link events, the flag is clear right after each disassociation, and it can
be set again only by an address-acquired event that comes later. -/
theorem C4_wifi_event_handler :
    (∀ s : NetState,
      wifi_event_handler esp_event_base_t.WIFI_EVENT WIFI_EVENT_STA_START s
        = (s, [Call.esp_wifi_connect]))
    ∧ (∀ s : NetState,
      wifi_event_handler esp_event_base_t.WIFI_EVENT WIFI_EVENT_STA_DISCONNECTED s
        = ({ s with s_event_group := xEventGroupClearBits s.s_event_group WIFI_GOT_IP_BIT },
           [Call.xEventGroupClearBits WIFI_GOT_IP_BIT, Call.esp_wifi_connect])
      ∧ hasAddress
          (wifi_event_handler esp_event_base_t.WIFI_EVENT WIFI_EVENT_STA_DISCONNECTED s).1
          = false)
    ∧ (∀ s : NetState,
      wifi_event_handler esp_event_base_t.IP_EVENT IP_EVENT_STA_GOT_IP s
        = ({ s with s_event_group := xEventGroupSetBits s.s_event_group WIFI_GOT_IP_BIT },
           [Call.xEventGroupSetBits WIFI_GOT_IP_BIT])
      ∧ hasAddress (wifi_event_handler esp_event_base_t.IP_EVENT IP_EVENT_STA_GOT_IP s).1
          = true)
    ∧ (∀ (event_base : esp_event_base_t) (event_id : Int) (s : NetState),
      connected (wifi_event_handler event_base event_id s).1 = connected s
      ∧ (wifi_event_handler event_base event_id s).1.s_mqtt = s.s_mqtt
      ∧ (wifi_event_handler event_base event_id s).1.s_netif = s.s_netif)
    ∧ (∀ (event_base : esp_event_base_t) (event_id : Int) (s : NetState),
      (event_base, event_id) ≠ (esp_event_base_t.WIFI_EVENT, WIFI_EVENT_STA_START) →
      (event_base, event_id) ≠ (esp_event_base_t.WIFI_EVENT, WIFI_EVENT_STA_DISCONNECTED) →
      (event_base, event_id) ≠ (esp_event_base_t.IP_EVENT, IP_EVENT_STA_GOT_IP) →
      wifi_event_handler event_base event_id s = (s, []))
    ∧ (∀ (pre : List (esp_event_base_t × Int)) (s : NetState),
      hasAddress (run_wifi_events
        (pre ++ [(esp_event_base_t.WIFI_EVENT, WIFI_EVENT_STA_DISCONNECTED)]) s).1 = false)
    ∧ (∀ (pre post : List (esp_event_base_t × Int)) (s : NetState),
      hasAddress (run_wifi_events
        (pre ++ (esp_event_base_t.WIFI_EVENT, WIFI_EVENT_STA_DISCONNECTED) :: post) s).1 = true →
      (esp_event_base_t.IP_EVENT, IP_EVENT_STA_GOT_IP) ∈ post) := by
  refine ⟨?_, ?_, ?_, ?_, ?_, ?_, ?_⟩
  · intro s
    simp [wifi_event_handler]
  · intro s
    refine ⟨?_, wifi_disconnected_hasAddress s⟩
    simp [wifi_event_handler, WIFI_EVENT_STA_DISCONNECTED, WIFI_EVENT_STA_START]
  · intro s
    refine ⟨?_, wifi_got_ip_hasAddress s⟩
    simp [wifi_event_handler]
  · intro event_base event_id s
    exact ⟨wifi_event_handler_connected event_base event_id s,
      wifi_event_handler_handles event_base event_id s⟩
  · intro event_base event_id s h1 h2 h3
    unfold wifi_event_handler
    rw [if_neg, if_neg, if_neg]
    · intro h; exact h3 (by rw [h.1, h.2])
    · intro h; exact h2 (by rw [h.1, h.2])
    · intro h; exact h1 (by rw [h.1, h.2])
  · intro pre s
    rw [run_wifi_events_append]
    simp only [run_wifi_events]
    exact wifi_disconnected_hasAddress _
  · intro pre post s h
    have hsplit : pre ++ (esp_event_base_t.WIFI_EVENT, WIFI_EVENT_STA_DISCONNECTED) :: post
        = (pre ++ [(esp_event_base_t.WIFI_EVENT, WIFI_EVENT_STA_DISCONNECTED)]) ++ post := by
      simp
    rw [hsplit, run_wifi_events_append] at h
    refine run_wifi_events_raises post _ ?_ h
    rw [run_wifi_events_append]
    simp only [run_wifi_events]
    exact wifi_disconnected_hasAddress _

/-- C4 at a concrete sequence: lease, disassociation, then an
association-started event. The flag is clear right after the disassociation,
and since it is set after a further address-acquired event, that event is in
what followed the disassociation. -/
theorem C4_wifi_event_handler_witness :
    hasAddress (run_wifi_events
        ([(esp_event_base_t.IP_EVENT, IP_EVENT_STA_GOT_IP)]
          ++ [(esp_event_base_t.WIFI_EVENT, WIFI_EVENT_STA_DISCONNECTED)])
        { s_event_group := 0, s_mqtt := none, s_netif := none }).1 = false
    ∧ hasAddress (run_wifi_events
        ([(esp_event_base_t.IP_EVENT, IP_EVENT_STA_GOT_IP)]
          ++ (esp_event_base_t.WIFI_EVENT, WIFI_EVENT_STA_DISCONNECTED)
            :: [(esp_event_base_t.WIFI_EVENT, WIFI_EVENT_STA_START),
                (esp_event_base_t.IP_EVENT, IP_EVENT_STA_GOT_IP)])
        { s_event_group := 0, s_mqtt := none, s_netif := none }).1 = true
    ∧ (esp_event_base_t.IP_EVENT, IP_EVENT_STA_GOT_IP)
        ∈ [(esp_event_base_t.WIFI_EVENT, WIFI_EVENT_STA_START),
           (esp_event_base_t.IP_EVENT, IP_EVENT_STA_GOT_IP)] :=
  ⟨C4_wifi_event_handler.2.2.2.2.2.1 [(esp_event_base_t.IP_EVENT, IP_EVENT_STA_GOT_IP)]
      { s_event_group := 0, s_mqtt := none, s_netif := none },
   by decide,
   C4_wifi_event_handler.2.2.2.2.2.2 [(esp_event_base_t.IP_EVENT, IP_EVENT_STA_GOT_IP)]
      [(esp_event_base_t.WIFI_EVENT, WIFI_EVENT_STA_START),
       (esp_event_base_t.IP_EVENT, IP_EVENT_STA_GOT_IP)]
      { s_event_group := 0, s_mqtt := none, s_netif := none } (by decide)⟩

/-! ## Messaging Session reactions -/

theorem mqtt_event_handler_hasAddress (cfg : Config) (mac : Mac) (event_id : Int)
    (s : NetState) : hasAddress (mqtt_event_handler cfg mac event_id s).1 = hasAddress s := by
  unfold mqtt_event_handler
  split_ifs <;>
    simp [hasAddress, allBitsSet_set_mqtt_wifi, allBitsSet_clear_mqtt_wifi]

theorem mqtt_event_handler_handles (cfg : Config) (mac : Mac) (event_id : Int)
    (s : NetState) :
    (mqtt_event_handler cfg mac event_id s).1.s_mqtt = s.s_mqtt
      ∧ (mqtt_event_handler cfg mac event_id s).1.s_netif = s.s_netif := by
  unfold mqtt_event_handler
  split_ifs <;> simp

theorem mqtt_connected_flag (cfg : Config) (mac : Mac) (s : NetState) :
    connected (mqtt_event_handler cfg mac MQTT_EVENT_CONNECTED s).1 = true := by
  simp [mqtt_event_handler, connected, allBitsSet_set_mqtt_mqtt]

theorem mqtt_disconnected_flag (cfg : Config) (mac : Mac) (s : NetState) :
    connected (mqtt_event_handler cfg mac MQTT_EVENT_DISCONNECTED s).1 = false := by
  simp [mqtt_event_handler, MQTT_EVENT_DISCONNECTED, MQTT_EVENT_CONNECTED, connected,
    allBitsSet_clear_mqtt_mqtt]

theorem mqtt_other_event (cfg : Config) (mac : Mac) (event_id : Int) (s : NetState)
    (h1 : event_id ≠ MQTT_EVENT_CONNECTED) (h2 : event_id ≠ MQTT_EVENT_DISCONNECTED) :
    mqtt_event_handler cfg mac event_id s = (s, []) := by
  unfold mqtt_event_handler
  rw [if_neg h1, if_neg h2]

theorem run_mqtt_events_append (cfg : Config) (mac : Mac) (pre post : List Int)
    (s : NetState) :
    (run_mqtt_events cfg mac (pre ++ post) s).1
      = (run_mqtt_events cfg mac post (run_mqtt_events cfg mac pre s).1).1 := by
  induction pre generalizing s with
  | nil => rfl
  | cons e pre ih => simp [run_mqtt_events, ih]

/-- The session-connected flag after a sequence of session events is decided
by the last connected or disconnected event of the sequence, and is the
flag before the sequence when there is none. -/
theorem run_mqtt_events_connected (cfg : Config) (mac : Mac) (events : List Int)
    (s : NetState) :
    connected (run_mqtt_events cfg mac events s).1 =
      match (events.filter
          (fun e => e = MQTT_EVENT_CONNECTED ∨ e = MQTT_EVENT_DISCONNECTED)).getLast? with
      | some e => decide (e = MQTT_EVENT_CONNECTED)
      | none => connected s := by
  induction events using List.reverseRecOn with
  | nil => simp [run_mqtt_events]
  | append_singleton events e ih =>
    rw [run_mqtt_events_append, List.filter_append]
    simp only [run_mqtt_events]
    by_cases hc : e = MQTT_EVENT_CONNECTED
    · subst hc
      rw [mqtt_connected_flag]
      simp
    · by_cases hd : e = MQTT_EVENT_DISCONNECTED
      · subst hd
        rw [mqtt_disconnected_flag]
        simp [MQTT_EVENT_DISCONNECTED, MQTT_EVENT_CONNECTED]
      · rw [mqtt_other_event cfg mac e _ hc hd]
        simp [hc, hd, ih]

/-- C5: the reactions of `mqtt_event_handler`. Every connected event first
sets the session-connected flag and then runs discovery; when discovery is
enabled and every payload fits its buffer that is exactly three publishes, for
temperature, pressure and humidity in this order, each with quality of
service 1 and retained. A disconnected event clears the flag and publishes
nothing; any other event changes nothing and calls nothing; no session event
changes the address-acquired flag or a handle. So, after every sequence of
session events that starts with the flag clear, the flag is set exactly when
the last connected or disconnected event of the sequence is a connected one. -/
theorem C5_mqtt_event_handler :
    (∀ (cfg : Config) (mac : Mac) (s : NetState),
      mqtt_event_handler cfg mac MQTT_EVENT_CONNECTED s
        = ({ s with s_event_group := xEventGroupSetBits s.s_event_group MQTT_CONNECTED_BIT },
           Call.xEventGroupSetBits MQTT_CONNECTED_BIT :: ha_publish_discovery cfg mac s.s_mqtt)
      ∧ connected (mqtt_event_handler cfg mac MQTT_EVENT_CONNECTED s).1 = true)
    ∧ (∀ (cfg : Config) (mac : Mac) (s : NetState),
      cfg.CONFIG_HA_DISCOVERY_ENABLE = true →
      (∀ c : SensorClass, (discoveryPayload (get_node_id cfg.CONFIG_DEVICE_NAME mac 64)
          cfg.CONFIG_MQTT_STATE_TOPIC c).length ≤ 1023) →
      (mqtt_event_handler cfg mac MQTT_EVENT_CONNECTED s).2
        = [Call.xEventGroupSetBits MQTT_CONNECTED_BIT,
           announcement s.s_mqtt cfg.CONFIG_HA_DISCOVERY_PREFIX
             (get_node_id cfg.CONFIG_DEVICE_NAME mac 64) cfg.CONFIG_MQTT_STATE_TOPIC
             SensorClass.temperature,
           announcement s.s_mqtt cfg.CONFIG_HA_DISCOVERY_PREFIX
             (get_node_id cfg.CONFIG_DEVICE_NAME mac 64) cfg.CONFIG_MQTT_STATE_TOPIC
             SensorClass.pressure,
           announcement s.s_mqtt cfg.CONFIG_HA_DISCOVERY_PREFIX
             (get_node_id cfg.CONFIG_DEVICE_NAME mac 64) cfg.CONFIG_MQTT_STATE_TOPIC
             SensorClass.humidity])
    ∧ (∀ (cfg : Config) (mac : Mac) (s : NetState),
      mqtt_event_handler cfg mac MQTT_EVENT_DISCONNECTED s
        = ({ s with s_event_group := xEventGroupClearBits s.s_event_group MQTT_CONNECTED_BIT },
           [Call.xEventGroupClearBits MQTT_CONNECTED_BIT])
      ∧ connected (mqtt_event_handler cfg mac MQTT_EVENT_DISCONNECTED s).1 = false)
    ∧ (∀ (cfg : Config) (mac : Mac) (event_id : Int) (s : NetState),
      event_id ≠ MQTT_EVENT_CONNECTED → event_id ≠ MQTT_EVENT_DISCONNECTED →
      mqtt_event_handler cfg mac event_id s = (s, []))
    ∧ (∀ (cfg : Config) (mac : Mac) (event_id : Int) (s : NetState),
      hasAddress (mqtt_event_handler cfg mac event_id s).1 = hasAddress s
      ∧ (mqtt_event_handler cfg mac event_id s).1.s_mqtt = s.s_mqtt
      ∧ (mqtt_event_handler cfg mac event_id s).1.s_netif = s.s_netif)
    ∧ (∀ (cfg : Config) (mac : Mac) (events : List Int) (s : NetState),
      connected s = false →
      (connected (run_mqtt_events cfg mac events s).1 = true
        ↔ (events.filter
            (fun e => e = MQTT_EVENT_CONNECTED ∨ e = MQTT_EVENT_DISCONNECTED)).getLast?
            = some MQTT_EVENT_CONNECTED)) := by
  refine ⟨?_, ?_, ?_, ?_, ?_, ?_⟩
  · intro cfg mac s
    refine ⟨?_, mqtt_connected_flag cfg mac s⟩
    simp [mqtt_event_handler]
  · intro cfg mac s hen hfit
    have h1 := hfit SensorClass.temperature
    have h2 := hfit SensorClass.pressure
    have h3 := hfit SensorClass.humidity
    simp only [mqtt_event_handler, if_true]
    rw [ha_publish_discovery_eq, if_pos hen]
    simp [SensorClass.all, List.filter_cons, Nat.lt_succ_of_le h1, Nat.lt_succ_of_le h2,
      Nat.lt_succ_of_le h3]
  · intro cfg mac s
    refine ⟨?_, mqtt_disconnected_flag cfg mac s⟩
    simp [mqtt_event_handler, MQTT_EVENT_DISCONNECTED, MQTT_EVENT_CONNECTED]
  · intro cfg mac event_id s h1 h2
    exact mqtt_other_event cfg mac event_id s h1 h2
  · intro cfg mac event_id s
    exact ⟨mqtt_event_handler_hasAddress cfg mac event_id s,
      mqtt_event_handler_handles cfg mac event_id s⟩
  · intro cfg mac events s h0
    rw [run_mqtt_events_connected]
    cases hl : (events.filter
        (fun e => e = MQTT_EVENT_CONNECTED ∨ e = MQTT_EVENT_DISCONNECTED)).getLast? with
    | none => simp [h0]
    | some e => simp

set_option maxRecDepth 100000 in
/-- C5 at a concrete input: discovery enabled, the identity
`esp32-bme280-AABBCC` derived from the hardware address, the state topic
`home/sensor1/state`; every payload fits, and a connected event makes the
flag call and then the three publishes. -/
theorem C5_mqtt_event_handler_witness :
    (∀ c : SensorClass,
      (discoveryPayload
        (get_node_id []
          (fun i => if i.val = 3 then 0xAA else if i.val = 4 then 0xBB else 0xCC) 64)
        "home/sensor1/state".toList c).length ≤ 1023)
    ∧ (mqtt_event_handler
        { CONFIG_DEVICE_NAME := [], CONFIG_MQTT_STATE_TOPIC := "home/sensor1/state".toList,
          CONFIG_HA_DISCOVERY_PREFIX := "homeassistant".toList,
          CONFIG_HA_DISCOVERY_ENABLE := true }
        (fun i => if i.val = 3 then 0xAA else if i.val = 4 then 0xBB else 0xCC)
        MQTT_EVENT_CONNECTED
        { s_event_group := 1, s_mqtt := some 1, s_netif := some 7 }).2
      = [Call.xEventGroupSetBits MQTT_CONNECTED_BIT,
         announcement (some 1) "homeassistant".toList
           (get_node_id []
             (fun i => if i.val = 3 then 0xAA else if i.val = 4 then 0xBB else 0xCC) 64)
           "home/sensor1/state".toList SensorClass.temperature,
         announcement (some 1) "homeassistant".toList
           (get_node_id []
             (fun i => if i.val = 3 then 0xAA else if i.val = 4 then 0xBB else 0xCC) 64)
           "home/sensor1/state".toList SensorClass.pressure,
         announcement (some 1) "homeassistant".toList
           (get_node_id []
             (fun i => if i.val = 3 then 0xAA else if i.val = 4 then 0xBB else 0xCC) 64)
           "home/sensor1/state".toList SensorClass.humidity] := by
  have hfit : ∀ c : SensorClass,
      (discoveryPayload
        (get_node_id []
          (fun i => if i.val = 3 then 0xAA else if i.val = 4 then 0xBB else 0xCC) 64)
        "home/sensor1/state".toList c).length ≤ 1023 := by
    intro c
    rw [discoveryPayload_length, get_node_id_eq]
    cases c <;> decide
  exact ⟨hfit, C5_mqtt_event_handler.2.1
    { CONFIG_DEVICE_NAME := [], CONFIG_MQTT_STATE_TOPIC := "home/sensor1/state".toList,
      CONFIG_HA_DISCOVERY_PREFIX := "homeassistant".toList,
      CONFIG_HA_DISCOVERY_ENABLE := true }
    (fun i => if i.val = 3 then 0xAA else if i.val = 4 then 0xBB else 0xCC)
    { s_event_group := 1, s_mqtt := some 1, s_netif := some 7 } rfl hfit⟩

/-! ## Device identity -/

/-- C7, as the claim words it, fails: a configured device name of 64 bytes
is cut to the 63 bytes the identity buffer can hold. -/
theorem C7_counterexample :
    List.replicate 64 'A' ≠ []
    ∧ get_node_id (List.replicate 64 'A') (fun _ => 0) 64 = List.replicate 63 'A'
    ∧ get_node_id (List.replicate 64 'A') (fun _ => 0) 64 ≠ List.replicate 64 'A' := by
  refine ⟨by decide, ?_, ?_⟩
  · rw [get_node_id_eq]; decide
  · rw [get_node_id_eq]; decide

/-- C7, amended: with its 64-byte buffer `get_node_id` yields the first 63
bytes of the configured device name when that name is not empty, hence the
name itself when it is at most 63 bytes long; when the name is empty it yields
`esp32-bme280-` followed by the hardware-address bytes 3, 4 and 5, in this
order, each as exactly two uppercase hexadecimal digits with zero padding. -/
theorem C7_get_node_id (name : List Char) (mac : Mac) :
    (name ≠ [] → get_node_id name mac 64 = name.take 63)
    ∧ (name ≠ [] → name.length ≤ 63 → get_node_id name mac 64 = name)
    ∧ (name = [] → get_node_id name mac 64
        = "esp32-bme280-".toList ++ hexByte (mac 3) ++ hexByte (mac 4) ++ hexByte (mac 5)) := by
  refine ⟨?_, ?_, ?_⟩
  · intro h
    rw [get_node_id_eq, if_pos h]
  · intro h hlen
    rw [get_node_id_eq, if_pos h, List.take_of_length_le hlen]
  · intro h
    rw [get_node_id_eq, if_neg (by simpa using h)]

/-- C7 at concrete inputs: the configured name `kitchen` is the identity;
with no configured name and the hardware address ending in 0A 1B FF the
identity is `esp32-bme280-0A1BFF`. -/
theorem C7_get_node_id_witness :
    get_node_id "kitchen".toList (fun _ => 0) 64 = "kitchen".toList
    ∧ get_node_id []
        (fun i => if i.val = 3 then 0x0A else if i.val = 4 then 0x1B else 0xFF) 64
      = "esp32-bme280-0A1BFF".toList :=
  ⟨(C7_get_node_id "kitchen".toList (fun _ => 0)).2.1 (by decide) (by decide),
   (C7_get_node_id []
      (fun i => if i.val = 3 then 0x0A else if i.val = 4 then 0x1B else 0xFF)).2.2 rfl⟩

/-! ## Discovery topics -/

/-- The topic of every announcement is what the 160-byte topic buffer holds:
the first 159 bytes of the full topic. -/
theorem announcement_topic (s_mqtt : Option Nat) (pfx deviceId stateTopic : List Char)
    (c : SensorClass) :
    announcement s_mqtt pfx deviceId stateTopic c
      = Call.esp_mqtt_client_publish s_mqtt ((discoveryTopic pfx deviceId c).take 159)
          (discoveryPayload deviceId stateTopic c) 0 1 true := rfl

/-- A topic of at most 159 bytes is published whole. -/
theorem announcement_topic_whole (s_mqtt : Option Nat) (pfx deviceId stateTopic : List Char)
    (c : SensorClass) (h : (discoveryTopic pfx deviceId c).length ≤ 159) :
    announcement s_mqtt pfx deviceId stateTopic c
      = Call.esp_mqtt_client_publish s_mqtt (discoveryTopic pfx deviceId c)
          (discoveryPayload deviceId stateTopic c) 0 1 true := by
  rw [announcement_topic, List.take_of_length_le h]

set_option maxRecDepth 100000 in
/-- C8 at a failing input: with a discovery prefix of 140 bytes and the
identity `esp32-bme280-AABBCC` all three payloads fit, so all three
announcements are published, and the temperature one goes to a topic of 159
bytes that is not the full topic (186 bytes): the tail of the identity, the
class and `/config` are cut off. -/
theorem C8_topic_truncated :
    ha_publish_discovery
        { CONFIG_DEVICE_NAME := "esp32-bme280-AABBCC".toList,
          CONFIG_MQTT_STATE_TOPIC := "home/sensor1/state".toList,
          CONFIG_HA_DISCOVERY_PREFIX := List.replicate 140 'p',
          CONFIG_HA_DISCOVERY_ENABLE := true }
        (fun _ => 0) (some 1)
      = [ Call.esp_mqtt_client_publish (some 1)
            (List.replicate 140 'p' ++ "/sensor/esp32-bme28".toList)
            (discoveryPayload "esp32-bme280-AABBCC".toList "home/sensor1/state".toList
              SensorClass.temperature) 0 1 true,
          Call.esp_mqtt_client_publish (some 1)
            (List.replicate 140 'p' ++ "/sensor/esp32-bme28".toList)
            (discoveryPayload "esp32-bme280-AABBCC".toList "home/sensor1/state".toList
              SensorClass.pressure) 0 1 true,
          Call.esp_mqtt_client_publish (some 1)
            (List.replicate 140 'p' ++ "/sensor/esp32-bme28".toList)
            (discoveryPayload "esp32-bme280-AABBCC".toList "home/sensor1/state".toList
              SensorClass.humidity) 0 1 true ]
    ∧ List.replicate 140 'p' ++ "/sensor/esp32-bme28".toList
        ≠ discoveryTopic (List.replicate 140 'p') "esp32-bme280-AABBCC".toList
            SensorClass.temperature := by
  have hid : get_node_id "esp32-bme280-AABBCC".toList (fun _ => 0) 64
      = "esp32-bme280-AABBCC".toList := by
    rw [get_node_id_eq]; decide
  refine ⟨?_, ?_⟩
  · rw [ha_publish_discovery_eq]
    simp only [if_true, hid]
    have hlen : ∀ c : SensorClass,
        (discoveryPayload "esp32-bme280-AABBCC".toList "home/sensor1/state".toList c).length
          < 1024 := by
      intro c
      rw [discoveryPayload_length]
      cases c <;> decide
    simp only [SensorClass.all, List.filter_cons, hlen, decide_True, if_true, List.filter_nil,
      List.map_cons, List.map_nil, announcement_topic]
    have ht : ∀ c : SensorClass,
        (discoveryTopic (List.replicate 140 'p') "esp32-bme280-AABBCC".toList c).take 159
          = List.replicate 140 'p' ++ "/sensor/esp32-bme28".toList := by
      intro c
      cases c <;> decide
    simp only [ht]
  · decide

/-! ## Discovery payloads -/

set_option maxRecDepth 100000 in
/-- C9: whatever `ha_publish_discovery` publishes is, in class order, the
announcement of some of the three classes, and the payload of the
announcement of class `c` is exactly the compact JSON object with the members
name, uniq_id, stat_t, unit_of_meas, dev_cla, val_tpl, dev in this order, built
from the identity `get_node_id` produced, the state topic, and the device name
`"sensor " ++ identity` in full. For the hardware address ending in AA BB CC,
no configured name and the state topic `home/sensor1/state`, the first publish
is the temperature announcement, and its payload holds the `uniq_id` and
`val_tpl` members verbatim. -/
theorem C9_discovery_payload :
    (∀ (cfg : Config) (mac : Mac) (s_mqtt : Option Nat),
      ∃ published : SensorClass → Bool,
        ha_publish_discovery cfg mac s_mqtt
          = (SensorClass.all.filter published).map (fun c =>
              Call.esp_mqtt_client_publish s_mqtt
                ((discoveryTopic cfg.CONFIG_HA_DISCOVERY_PREFIX
                  (get_node_id cfg.CONFIG_DEVICE_NAME mac 64) c).take 159)
                (discoveryPayload (get_node_id cfg.CONFIG_DEVICE_NAME mac 64)
                  cfg.CONFIG_MQTT_STATE_TOPIC c)
                0 1 true))
    ∧ (∀ (deviceId stateTopic : List Char) (c : SensorClass),
      discoveryPayload deviceId stateTopic c
        = "\x7b\"name\":\"sensor ".toList ++ deviceId ++ " ".toList ++ c.title
          ++ "\",\"uniq_id\":\"".toList ++ deviceId ++ "_".toList ++ c.name
          ++ "\",\"stat_t\":\"".toList ++ stateTopic
          ++ "\",\"unit_of_meas\":\"".toList ++ c.unit
          ++ "\",\"dev_cla\":\"".toList ++ c.name
          ++ "\",\"val_tpl\":\"\x7b\x7b value_json.".toList ++ c.name
          ++ " \x7d\x7d\",\"dev\":\x7b\"ids\":[\"".toList ++ deviceId
          ++ "\"],\"name\":\"sensor ".toList ++ deviceId
          ++ "\",\"mdl\":\"BME280\",\"mf\":\"Bosch\"\x7d\x7d".toList)
    ∧ (∃ data : List Char,
      (ha_publish_discovery
          { CONFIG_DEVICE_NAME := [],
            CONFIG_MQTT_STATE_TOPIC := "home/sensor1/state".toList,
            CONFIG_HA_DISCOVERY_PREFIX := "homeassistant".toList,
            CONFIG_HA_DISCOVERY_ENABLE := true }
          (fun i => if i.val = 3 then 0xAA else if i.val = 4 then 0xBB else 0xCC)
          (some 1)).head?
        = some (Call.esp_mqtt_client_publish (some 1)
            "homeassistant/sensor/esp32-bme280-AABBCC_temperature/config".toList data 0 1 true)
      ∧ "\"uniq_id\":\"esp32-bme280-AABBCC_temperature\"".toList <:+: data
      ∧ "\"val_tpl\":\"\x7b\x7b value_json.temperature \x7d\x7d\"".toList <:+: data) := by
  refine ⟨?_, ?_, ?_⟩
  · intro cfg mac s_mqtt
    rw [ha_publish_discovery_eq]
    by_cases hen : cfg.CONFIG_HA_DISCOVERY_ENABLE = true
    · rw [if_pos hen]
      exact ⟨_, rfl⟩
    · rw [if_neg hen]
      exact ⟨fun _ => false, by simp [SensorClass.all]⟩
  · intro deviceId stateTopic c
    simp [discoveryPayload, jsonObject, jsonMember, jsonText, jsonArray, deviceName,
      List.intercalate, List.intersperse]
  · have hid : get_node_id []
        (fun i => if i.val = 3 then 0xAA else if i.val = 4 then 0xBB else 0xCC) 64
        = "esp32-bme280-AABBCC".toList := by
      rw [get_node_id_eq]; decide
    refine ⟨discoveryPayload "esp32-bme280-AABBCC".toList "home/sensor1/state".toList
      SensorClass.temperature, ?_, ?_, ?_⟩
    · rw [ha_publish_discovery_eq]
      simp only [if_true, hid]
      have hlen : (discoveryPayload "esp32-bme280-AABBCC".toList "home/sensor1/state".toList
          SensorClass.temperature).length < 1024 := by
        rw [discoveryPayload_length]; decide
      simp only [SensorClass.all, List.filter_cons, hlen, decide_True, if_true, List.map_cons,
        List.head?_cons, announcement_topic]
      have ht : (discoveryTopic "homeassistant".toList "esp32-bme280-AABBCC".toList
          SensorClass.temperature).take 159
          = "homeassistant/sensor/esp32-bme280-AABBCC_temperature/config".toList := by
        decide
      rw [ht]
    · decide
    · decide

/-! ## Rendering overflow -/

set_option maxRecDepth 100000 in
/-- C10, as the claim words it, fails: with discovery disabled by
configuration nothing is published, although all three payloads fit the buffer. -/
theorem C10_counterexample :
    ha_publish_discovery
        { CONFIG_DEVICE_NAME := "esp32-bme280-AABBCC".toList,
          CONFIG_MQTT_STATE_TOPIC := "home/sensor1/state".toList,
          CONFIG_HA_DISCOVERY_PREFIX := "homeassistant".toList,
          CONFIG_HA_DISCOVERY_ENABLE := false }
        (fun _ => 0) (some 1) = []
    ∧ ∀ c : SensorClass,
        1 ≤ (discoveryPayload (get_node_id "esp32-bme280-AABBCC".toList (fun _ => 0) 64)
              "home/sensor1/state".toList c).length
        ∧ (discoveryPayload (get_node_id "esp32-bme280-AABBCC".toList (fun _ => 0) 64)
              "home/sensor1/state".toList c).length ≤ 1023 := by
  refine ⟨by simp [ha_publish_discovery], ?_⟩
  intro c
  rw [discoveryPayload_length, get_node_id_eq]
  cases c <;> decide

/-- With discovery enabled: what `ha_publish_discovery` publishes, which
classes it publishes, and that every payload it sends is whole. -/
theorem discovery_overflow_enabled (cfg : Config) (mac : Mac) (s_mqtt : Option Nat)
    (hen : cfg.CONFIG_HA_DISCOVERY_ENABLE = true) :
    ha_publish_discovery cfg mac s_mqtt
      = (SensorClass.all.filter (fun c =>
          decide (1 ≤ (discoveryPayload (get_node_id cfg.CONFIG_DEVICE_NAME mac 64)
                    cfg.CONFIG_MQTT_STATE_TOPIC c).length
                  ∧ (discoveryPayload (get_node_id cfg.CONFIG_DEVICE_NAME mac 64)
                    cfg.CONFIG_MQTT_STATE_TOPIC c).length ≤ 1023))).map
          (announcement s_mqtt cfg.CONFIG_HA_DISCOVERY_PREFIX
            (get_node_id cfg.CONFIG_DEVICE_NAME mac 64) cfg.CONFIG_MQTT_STATE_TOPIC)
    ∧ (∀ c : SensorClass,
        announcement s_mqtt cfg.CONFIG_HA_DISCOVERY_PREFIX
            (get_node_id cfg.CONFIG_DEVICE_NAME mac 64) cfg.CONFIG_MQTT_STATE_TOPIC c
          ∈ ha_publish_discovery cfg mac s_mqtt
        ↔ (1 ≤ (discoveryPayload (get_node_id cfg.CONFIG_DEVICE_NAME mac 64)
                  cfg.CONFIG_MQTT_STATE_TOPIC c).length
            ∧ (discoveryPayload (get_node_id cfg.CONFIG_DEVICE_NAME mac 64)
                  cfg.CONFIG_MQTT_STATE_TOPIC c).length ≤ 1023))
    ∧ (∀ (client : Option Nat) (topic data : List Char) (len qos : Int) (retain : Bool),
        Call.esp_mqtt_client_publish client topic data len qos retain
          ∈ ha_publish_discovery cfg mac s_mqtt →
        data.length ≤ 1023
        ∧ ∃ c : SensorClass,
            data = discoveryPayload (get_node_id cfg.CONFIG_DEVICE_NAME mac 64)
              cfg.CONFIG_MQTT_STATE_TOPIC c) := by
  have hiff : ∀ c : SensorClass,
      (1 ≤ (discoveryPayload (get_node_id cfg.CONFIG_DEVICE_NAME mac 64)
              cfg.CONFIG_MQTT_STATE_TOPIC c).length
        ∧ (discoveryPayload (get_node_id cfg.CONFIG_DEVICE_NAME mac 64)
              cfg.CONFIG_MQTT_STATE_TOPIC c).length ≤ 1023)
      ↔ (discoveryPayload (get_node_id cfg.CONFIG_DEVICE_NAME mac 64)
              cfg.CONFIG_MQTT_STATE_TOPIC c).length < 1024 := by
    intro c
    have := discoveryPayload_pos (get_node_id cfg.CONFIG_DEVICE_NAME mac 64)
      cfg.CONFIG_MQTT_STATE_TOPIC c
    omega
  have heq := ha_publish_discovery_eq cfg mac s_mqtt
  rw [if_pos hen] at heq
  refine ⟨?_, ?_, ?_⟩
  · rw [heq]
    congr 1
    apply List.filter_congr
    intro c _
    simp only [hiff c]
  · intro c
    rw [heq, hiff c, List.mem_map]
    constructor
    · rintro ⟨d, hd, hann⟩
      rw [announcement_topic, announcement_topic] at hann
      have hpay : discoveryPayload (get_node_id cfg.CONFIG_DEVICE_NAME mac 64)
          cfg.CONFIG_MQTT_STATE_TOPIC d
          = discoveryPayload (get_node_id cfg.CONFIG_DEVICE_NAME mac 64)
              cfg.CONFIG_MQTT_STATE_TOPIC c := by
        injection hann
      have hdc := discoveryPayload_injective _ _ _ _ hpay
      subst hdc
      simpa using (List.mem_filter.mp hd).2
    · intro h
      refine ⟨c, List.mem_filter.mpr ⟨?_, by simpa using h⟩, rfl⟩
      cases c <;> simp [SensorClass.all]
  · intro client topic data len qos retain hmem
    rw [heq, List.mem_map] at hmem
    obtain ⟨d, hd, hann⟩ := hmem
    rw [announcement_topic] at hann
    have hdata : discoveryPayload (get_node_id cfg.CONFIG_DEVICE_NAME mac 64)
        cfg.CONFIG_MQTT_STATE_TOPIC d = data := by
      injection hann
    have hlt : (discoveryPayload (get_node_id cfg.CONFIG_DEVICE_NAME mac 64)
        cfg.CONFIG_MQTT_STATE_TOPIC d).length < 1024 := by
      simpa using (List.mem_filter.mp hd).2
    refine ⟨?_, d, hdata.symm⟩
    rw [← hdata]
    omega

/-- C10, amended: when discovery is enabled, `ha_publish_discovery`
publishes the announcement of a class if and only if the whole payload of that
class is at least 1 and at most 1023 bytes long; what it publishes is the
announcements of exactly those classes, in class order, so each class is
decided by its own length and a class that overflows stops no later one; and
every payload it sends is a whole payload of at most 1023 bytes, never a
truncated one. When discovery is disabled, whatever the identity, the state
topic and the lengths, it publishes nothing and makes no call at all. -/
theorem C10_discovery_overflow (cfg : Config) (mac : Mac) (s_mqtt : Option Nat) :
    (cfg.CONFIG_HA_DISCOVERY_ENABLE = true →
      ha_publish_discovery cfg mac s_mqtt
        = (SensorClass.all.filter (fun c =>
            decide (1 ≤ (discoveryPayload (get_node_id cfg.CONFIG_DEVICE_NAME mac 64)
                      cfg.CONFIG_MQTT_STATE_TOPIC c).length
                    ∧ (discoveryPayload (get_node_id cfg.CONFIG_DEVICE_NAME mac 64)
                      cfg.CONFIG_MQTT_STATE_TOPIC c).length ≤ 1023))).map
            (announcement s_mqtt cfg.CONFIG_HA_DISCOVERY_PREFIX
              (get_node_id cfg.CONFIG_DEVICE_NAME mac 64) cfg.CONFIG_MQTT_STATE_TOPIC)
      ∧ (∀ c : SensorClass,
          announcement s_mqtt cfg.CONFIG_HA_DISCOVERY_PREFIX
              (get_node_id cfg.CONFIG_DEVICE_NAME mac 64) cfg.CONFIG_MQTT_STATE_TOPIC c
            ∈ ha_publish_discovery cfg mac s_mqtt
          ↔ (1 ≤ (discoveryPayload (get_node_id cfg.CONFIG_DEVICE_NAME mac 64)
                    cfg.CONFIG_MQTT_STATE_TOPIC c).length
              ∧ (discoveryPayload (get_node_id cfg.CONFIG_DEVICE_NAME mac 64)
                    cfg.CONFIG_MQTT_STATE_TOPIC c).length ≤ 1023))
      ∧ (∀ (client : Option Nat) (topic data : List Char) (len qos : Int) (retain : Bool),
          Call.esp_mqtt_client_publish client topic data len qos retain
            ∈ ha_publish_discovery cfg mac s_mqtt →
          data.length ≤ 1023
          ∧ ∃ c : SensorClass,
              data = discoveryPayload (get_node_id cfg.CONFIG_DEVICE_NAME mac 64)
                cfg.CONFIG_MQTT_STATE_TOPIC c))
    ∧ (cfg.CONFIG_HA_DISCOVERY_ENABLE = false → ha_publish_discovery cfg mac s_mqtt = []) := by
  refine ⟨discovery_overflow_enabled cfg mac s_mqtt, ?_⟩
  intro hoff
  simp [ha_publish_discovery, hoff]

set_option maxRecDepth 100000 in
/-- C10 at a concrete input: discovery enabled, the identity
`esp32-bme280-AABBCC` and a state topic of 735 bytes. The temperature payload
(1030 bytes) overflows and is not published; the pressure payload (1016 bytes)
and the humidity payload (1014 bytes) still are. With discovery disabled and
everything else the same, nothing is published. -/
theorem C10_discovery_overflow_witness :
    (({ CONFIG_DEVICE_NAME := "esp32-bme280-AABBCC".toList,
        CONFIG_MQTT_STATE_TOPIC := List.replicate 735 't',
        CONFIG_HA_DISCOVERY_PREFIX := "homeassistant".toList,
        CONFIG_HA_DISCOVERY_ENABLE := true } : Config).CONFIG_HA_DISCOVERY_ENABLE = true)
    ∧ ha_publish_discovery
          { CONFIG_DEVICE_NAME := "esp32-bme280-AABBCC".toList,
            CONFIG_MQTT_STATE_TOPIC := List.replicate 735 't',
            CONFIG_HA_DISCOVERY_PREFIX := "homeassistant".toList,
            CONFIG_HA_DISCOVERY_ENABLE := true }
          (fun _ => 0) (some 1)
        = [ announcement (some 1) "homeassistant".toList "esp32-bme280-AABBCC".toList
              (List.replicate 735 't') SensorClass.pressure,
            announcement (some 1) "homeassistant".toList "esp32-bme280-AABBCC".toList
              (List.replicate 735 't') SensorClass.humidity ]
    ∧ ha_publish_discovery
          { CONFIG_DEVICE_NAME := "esp32-bme280-AABBCC".toList,
            CONFIG_MQTT_STATE_TOPIC := List.replicate 735 't',
            CONFIG_HA_DISCOVERY_PREFIX := "homeassistant".toList,
            CONFIG_HA_DISCOVERY_ENABLE := false }
          (fun _ => 0) (some 1) = [] := by
  refine ⟨rfl, ?_, (C10_discovery_overflow
      { CONFIG_DEVICE_NAME := "esp32-bme280-AABBCC".toList,
        CONFIG_MQTT_STATE_TOPIC := List.replicate 735 't',
        CONFIG_HA_DISCOVERY_PREFIX := "homeassistant".toList,
        CONFIG_HA_DISCOVERY_ENABLE := false }
      (fun _ => 0) (some 1)).2 rfl⟩
  rw [((C10_discovery_overflow
      { CONFIG_DEVICE_NAME := "esp32-bme280-AABBCC".toList,
        CONFIG_MQTT_STATE_TOPIC := List.replicate 735 't',
        CONFIG_HA_DISCOVERY_PREFIX := "homeassistant".toList,
        CONFIG_HA_DISCOVERY_ENABLE := true }
      (fun _ => 0) (some 1)).1 rfl).1]
  have hid : get_node_id "esp32-bme280-AABBCC".toList (fun _ => 0) 64
      = "esp32-bme280-AABBCC".toList := by
    rw [get_node_id_eq]; decide
  simp only [hid, discoveryPayload_length, SensorClass.all, List.filter_cons,
    List.length_replicate]
  simp

/-! ## Schedules -/

theorem sys_run_nil {Pc : Type} (task : Int → Pc → NetState → Pc × NetState × List Call)
    (cfg : Config) (mac : Mac) (st : Sys Pc) : sys_run task cfg mac st [] = st := rfl

theorem sys_run_cons {Pc : Type} (task : Int → Pc → NetState → Pc × NetState × List Call)
    (cfg : Config) (mac : Mac) (st : Sys Pc) (x : Sched) (sched : List Sched) :
    sys_run task cfg mac st (x :: sched)
      = sys_run task cfg mac (sys_step task cfg mac st x) sched := rfl

theorem sys_run_snoc {Pc : Type} (task : Int → Pc → NetState → Pc × NetState × List Call)
    (cfg : Config) (mac : Mac) (st : Sys Pc) (sched : List Sched) (x : Sched) :
    sys_run task cfg mac st (sched ++ [x])
      = sys_step task cfg mac (sys_run task cfg mac st sched) x := by
  simp [sys_run, List.foldl_append]

theorem callerCalls_append_caller (log : List (Origin × Call)) (calls : List Call) :
    callerCalls (log ++ calls.map (fun c => (Origin.caller, c))) = callerCalls log ++ calls := by
  unfold callerCalls
  rw [List.filter_append, List.map_append]
  congr 1
  induction calls with
  | nil => rfl
  | cons c calls ih => simpa using ih

theorem callerCalls_append_handler (log : List (Origin × Call)) (calls : List Call) :
    callerCalls (log ++ calls.map (fun c => (Origin.handler, c))) = callerCalls log := by
  unfold callerCalls
  rw [List.filter_append, List.map_append]
  have : (calls.map (fun c => (Origin.handler, c))).filter (fun e => e.1 = Origin.caller)
      = [] := by
    induction calls with
    | nil => rfl
    | cons c calls ih => simp
  rw [this]
  simp

/-- An event step leaves the calling task where it is and adds none of its calls. -/
theorem sys_step_mqtt_event {Pc : Type}
    (task : Int → Pc → NetState → Pc × NetState × List Call)
    (cfg : Config) (mac : Mac) (st : Sys Pc) (event_id : Int) :
    (sys_step task cfg mac st (Sched.mqtt_event event_id)).pc = st.pc
    ∧ (sys_step task cfg mac st (Sched.mqtt_event event_id)).net
        = (mqtt_event_handler cfg mac event_id st.net).1
    ∧ callerCalls (sys_step task cfg mac st (Sched.mqtt_event event_id)).log
        = callerCalls st.log := by
  refine ⟨rfl, rfl, ?_⟩
  simp only [sys_step]
  exact callerCalls_append_handler _ _

theorem sys_step_wifi_event {Pc : Type}
    (task : Int → Pc → NetState → Pc × NetState × List Call)
    (cfg : Config) (mac : Mac) (st : Sys Pc) (event_base : esp_event_base_t) (event_id : Int) :
    (sys_step task cfg mac st (Sched.wifi_event event_base event_id)).pc = st.pc
    ∧ (sys_step task cfg mac st (Sched.wifi_event event_base event_id)).net
        = (wifi_event_handler event_base event_id st.net).1
    ∧ callerCalls (sys_step task cfg mac st (Sched.wifi_event event_base event_id)).log
        = callerCalls st.log := by
  refine ⟨rfl, rfl, ?_⟩
  simp only [sys_step]
  exact callerCalls_append_handler _ _

theorem sys_step_task {Pc : Type}
    (task : Int → Pc → NetState → Pc × NetState × List Call)
    (cfg : Config) (mac : Mac) (st : Sys Pc) (ret : Int) :
    (sys_step task cfg mac st (Sched.task ret)).pc = (task ret st.pc st.net).1
    ∧ (sys_step task cfg mac st (Sched.task ret)).net = (task ret st.pc st.net).2.1
    ∧ callerCalls (sys_step task cfg mac st (Sched.task ret)).log
        = callerCalls st.log ++ (task ret st.pc st.net).2.2 := by
  refine ⟨rfl, rfl, ?_⟩
  simp only [sys_step]
  exact callerCalls_append_caller _ _

theorem sys_run_append {Pc : Type} (task : Int → Pc → NetState → Pc × NetState × List Call)
    (cfg : Config) (mac : Mac) (st : Sys Pc) (pre post : List Sched) :
    sys_run task cfg mac st (pre ++ post)
      = sys_run task cfg mac (sys_run task cfg mac st pre) post := by
  simp [sys_run, List.foldl_append]

/-- Events alone, however many, leave the calling task where it is, keep the
session handle, and add none of the task's calls. -/
theorem sys_run_events {Pc : Type} (task : Int → Pc → NetState → Pc × NetState × List Call)
    (cfg : Config) (mac : Mac) (events : List Sched)
    (hev : ∀ x ∈ events, ∀ ret : Int, x ≠ Sched.task ret) (st : Sys Pc) :
    (sys_run task cfg mac st events).pc = st.pc
    ∧ (sys_run task cfg mac st events).net.s_mqtt = st.net.s_mqtt
    ∧ callerCalls (sys_run task cfg mac st events).log = callerCalls st.log := by
  induction events generalizing st with
  | nil => exact ⟨rfl, rfl, rfl⟩
  | cons x events ih =>
    have hrest : ∀ y ∈ events, ∀ ret : Int, y ≠ Sched.task ret :=
      fun y hy => hev y (List.mem_cons_of_mem _ hy)
    rw [sys_run_cons]
    obtain ⟨i1, i2, i3⟩ := ih hrest (sys_step task cfg mac st x)
    rw [i1, i2, i3]
    cases x with
    | task ret => exact absurd rfl (hev (Sched.task ret) (List.mem_cons_self _ _) ret)
    | mqtt_event event_id =>
      obtain ⟨hpc, hnet, hlog⟩ := sys_step_mqtt_event task cfg mac st event_id
      exact ⟨hpc, by rw [hnet]; exact (mqtt_event_handler_handles cfg mac event_id st.net).1,
        hlog⟩
    | wifi_event event_base event_id =>
      obtain ⟨hpc, hnet, hlog⟩ := sys_step_wifi_event task cfg mac st event_base event_id
      exact ⟨hpc,
        by rw [hnet]; exact (wifi_event_handler_handles event_base event_id st.net).1, hlog⟩

/-! ## The blocking publish -/

/-- C1: when no session exists (`s_mqtt` is `NULL`), whatever the arguments
and whatever the readiness flags, the first step of
`net_mqtt_publish_blocking` returns `ESP_ERR_INVALID_STATE`: it makes no call
at all, so it neither waits on the session-connected flag nor publishes, and
it leaves the event bits and the handles as they were. -/
theorem C1_publish_without_session (topic payload : List Char) (qos : Int) (retain : Bool)
    (msg_id : Int) (s : NetState) (h : s.s_mqtt = none) :
    net_mqtt_publish_blocking topic payload qos retain msg_id PublishPc.entry s
      = (PublishPc.returned ESP_ERR_INVALID_STATE, s, [])
    ∧ ESP_ERR_INVALID_STATE ≠ ESP_OK
    ∧ ∀ (cfg : Config) (mac : Mac) (log : List (Origin × Call)),
        sys_step (net_mqtt_publish_blocking topic payload qos retain) cfg mac
            { pc := PublishPc.entry, net := s, log := log } (Sched.task msg_id)
          = { pc := PublishPc.returned ESP_ERR_INVALID_STATE, net := s, log := log } := by
  refine ⟨?_, by decide, ?_⟩
  · simp [net_mqtt_publish_blocking, h]
  · intro cfg mac log
    simp [sys_step, net_mqtt_publish_blocking, h]

/-- C1 at a concrete input: no session, the session-connected flag clear. -/
theorem C1_publish_without_session_witness :
    ({ s_event_group := 0, s_mqtt := none, s_netif := none } : NetState).s_mqtt = none
    ∧ net_mqtt_publish_blocking "home/sensor1/state".toList "21.49".toList 1 false 0
        PublishPc.entry { s_event_group := 0, s_mqtt := none, s_netif := none }
      = (PublishPc.returned ESP_ERR_INVALID_STATE,
         { s_event_group := 0, s_mqtt := none, s_netif := none }, []) :=
  ⟨rfl, (C1_publish_without_session "home/sensor1/state".toList "21.49".toList 1 false 0
    { s_event_group := 0, s_mqtt := none, s_netif := none } rfl).1⟩

/-- C3: when a session exists and the session-connected flag is set, a call
of `net_mqtt_publish_blocking` that runs to its return makes, after its wait,
exactly one publish, with the caller's topic, payload, quality of service and
retain flag and with length 0; it leaves the state alone; and it returns
`ESP_OK` if and only if the message identifier that publish returned is not
negative, `ESP_FAIL` otherwise. -/
theorem C3_publish_connected (topic payload : List Char) (qos : Int) (retain : Bool)
    (cfg : Config) (mac : Mac) (client : Nat) (s : NetState) (r1 r2 msg_id : Int)
    (hs : s.s_mqtt = some client) (hc : connected s = true) :
    (sys_run (net_mqtt_publish_blocking topic payload qos retain) cfg mac
        { pc := PublishPc.entry, net := s, log := [] }
        [Sched.task r1, Sched.task r2, Sched.task msg_id])
      = { pc := PublishPc.returned (if msg_id ≥ 0 then ESP_OK else ESP_FAIL),
          net := s,
          log := [(Origin.caller, Call.xEventGroupWaitBits MQTT_CONNECTED_BIT),
                  (Origin.caller,
                   Call.esp_mqtt_client_publish (some client) topic payload 0 qos retain)] }
    ∧ ((if msg_id ≥ 0 then ESP_OK else ESP_FAIL) = ESP_OK ↔ 0 ≤ msg_id)
    ∧ ((if msg_id ≥ 0 then ESP_OK else ESP_FAIL) = ESP_FAIL ↔ msg_id < 0) := by
  have hc2 : allBitsSet s.s_event_group MQTT_CONNECTED_BIT = true := hc
  refine ⟨?_, ?_, ?_⟩
  · simp [sys_run, sys_step, net_mqtt_publish_blocking, hs, hc2]
  · by_cases hm : msg_id ≥ 0
    · simp [hm]
    · simp [hm, ESP_OK, ESP_FAIL]
  · by_cases hm : msg_id ≥ 0
    · simp [hm, ESP_OK, ESP_FAIL]
    · simp [hm]
      omega

/-- C3 at a concrete input: session 1, the flag set, quality of service 1,
and a publish that is refused (message identifier -1). -/
theorem C3_publish_connected_witness :
    ({ s_event_group := 2, s_mqtt := some 1, s_netif := none } : NetState).s_mqtt = some 1
    ∧ connected { s_event_group := 2, s_mqtt := some 1, s_netif := none } = true
    ∧ (sys_run (net_mqtt_publish_blocking "home/sensor1/state".toList "21.49".toList 1 false)
        { CONFIG_DEVICE_NAME := [], CONFIG_MQTT_STATE_TOPIC := "home/sensor1/state".toList,
          CONFIG_HA_DISCOVERY_PREFIX := "homeassistant".toList,
          CONFIG_HA_DISCOVERY_ENABLE := true }
        (fun _ => 0)
        { pc := PublishPc.entry,
          net := { s_event_group := 2, s_mqtt := some 1, s_netif := none }, log := [] }
        [Sched.task 0, Sched.task 0, Sched.task (-1)])
      = { pc := PublishPc.returned ESP_FAIL,
          net := { s_event_group := 2, s_mqtt := some 1, s_netif := none },
          log := [(Origin.caller, Call.xEventGroupWaitBits MQTT_CONNECTED_BIT),
                  (Origin.caller,
                   Call.esp_mqtt_client_publish (some 1) "home/sensor1/state".toList
                     "21.49".toList 0 1 false)] } :=
  ⟨rfl, by decide,
   (C3_publish_connected "home/sensor1/state".toList "21.49".toList 1 false
      { CONFIG_DEVICE_NAME := [], CONFIG_MQTT_STATE_TOPIC := "home/sensor1/state".toList,
        CONFIG_HA_DISCOVERY_PREFIX := "homeassistant".toList,
        CONFIG_HA_DISCOVERY_ENABLE := true }
      (fun _ => 0) 1 { s_event_group := 2, s_mqtt := some 1, s_netif := none } 0 0 (-1)
      rfl (by decide)).1⟩

/-! ## The blocking publish under every interleaving -/

/-- C2, as the claim words it, fails: the call is released while the
session-connected flag is set, a disconnected event then clears the flag, and
the call goes on to issue its publish and to return with the flag clear. -/
theorem C2_counterexample :
    connected (sys_run
        (net_mqtt_publish_blocking "home/sensor1/state".toList "21.49".toList 1 false)
        { CONFIG_DEVICE_NAME := [], CONFIG_MQTT_STATE_TOPIC := "home/sensor1/state".toList,
          CONFIG_HA_DISCOVERY_PREFIX := "homeassistant".toList,
          CONFIG_HA_DISCOVERY_ENABLE := true }
        (fun _ => 0)
        { pc := PublishPc.entry,
          net := { s_event_group := 2, s_mqtt := some 1, s_netif := none }, log := [] }
        [Sched.task 0, Sched.task 0, Sched.mqtt_event MQTT_EVENT_DISCONNECTED]).net = false
    ∧ sys_step
        (net_mqtt_publish_blocking "home/sensor1/state".toList "21.49".toList 1 false)
        { CONFIG_DEVICE_NAME := [], CONFIG_MQTT_STATE_TOPIC := "home/sensor1/state".toList,
          CONFIG_HA_DISCOVERY_PREFIX := "homeassistant".toList,
          CONFIG_HA_DISCOVERY_ENABLE := true }
        (fun _ => 0)
        (sys_run
          (net_mqtt_publish_blocking "home/sensor1/state".toList "21.49".toList 1 false)
          { CONFIG_DEVICE_NAME := [], CONFIG_MQTT_STATE_TOPIC := "home/sensor1/state".toList,
            CONFIG_HA_DISCOVERY_PREFIX := "homeassistant".toList,
            CONFIG_HA_DISCOVERY_ENABLE := true }
          (fun _ => 0)
          { pc := PublishPc.entry,
            net := { s_event_group := 2, s_mqtt := some 1, s_netif := none }, log := [] }
          [Sched.task 0, Sched.task 0, Sched.mqtt_event MQTT_EVENT_DISCONNECTED])
        (Sched.task 7)
      = { pc := PublishPc.returned ESP_OK,
          net := { s_event_group := 0, s_mqtt := some 1, s_netif := none },
          log := [(Origin.caller, Call.xEventGroupWaitBits MQTT_CONNECTED_BIT),
                  (Origin.handler, Call.xEventGroupClearBits MQTT_CONNECTED_BIT),
                  (Origin.caller,
                   Call.esp_mqtt_client_publish (some 1) "home/sensor1/state".toList
                     "21.49".toList 0 1 false)] } := by
  refine ⟨?_, ?_⟩
  · decide
  · decide

/-- The function `net_mqtt_publish_blocking` never writes the component's state. -/
theorem publish_step_net (topic payload : List Char) (qos : Int) (retain : Bool)
    (msg_id : Int) (pc : PublishPc) (s : NetState) :
    (net_mqtt_publish_blocking topic payload qos retain msg_id pc s).2.1 = s := by
  unfold net_mqtt_publish_blocking
  cases pc <;> simp <;> split_ifs <;> rfl

/-- What holds of a call of `net_mqtt_publish_blocking` on an existing
session after every schedule: the session is still there; the calls the task
has made are those of its program counter; and if it has come back from its
wait, then at the step that released it the session-connected flag was set. -/
theorem publish_run_inv (topic payload : List Char) (qos : Int) (retain : Bool)
    (cfg : Config) (mac : Mac) (client : Nat) (s0 : NetState) (hs : s0.s_mqtt = some client)
    (sched : List Sched) :
    (sys_run (net_mqtt_publish_blocking topic payload qos retain) cfg mac
        { pc := PublishPc.entry, net := s0, log := [] } sched).net.s_mqtt = some client
    ∧ callerCalls (sys_run (net_mqtt_publish_blocking topic payload qos retain) cfg mac
        { pc := PublishPc.entry, net := s0, log := [] } sched).log
      = publishCalls (some client) topic payload qos retain
          (sys_run (net_mqtt_publish_blocking topic payload qos retain) cfg mac
            { pc := PublishPc.entry, net := s0, log := [] } sched).pc
    ∧ ((sys_run (net_mqtt_publish_blocking topic payload qos retain) cfg mac
        { pc := PublishPc.entry, net := s0, log := [] } sched).pc.released = true →
      ∃ (pre : List Sched) (ret : Int) (post : List Sched),
        sched = pre ++ Sched.task ret :: post
        ∧ (sys_run (net_mqtt_publish_blocking topic payload qos retain) cfg mac
            { pc := PublishPc.entry, net := s0, log := [] } pre).pc = PublishPc.wait
        ∧ connected (sys_run (net_mqtt_publish_blocking topic payload qos retain) cfg mac
            { pc := PublishPc.entry, net := s0, log := [] } pre).net = true) := by
  induction sched using List.reverseRecOn with
  | nil =>
    refine ⟨hs, rfl, ?_⟩
    intro h
    simp [sys_run_nil, PublishPc.released] at h
  | append_singleton sched x ih =>
    obtain ⟨ih1, ih2, ih3⟩ := ih
    have extend : (∃ (pre : List Sched) (ret : Int) (post : List Sched),
          sched = pre ++ Sched.task ret :: post
          ∧ (sys_run (net_mqtt_publish_blocking topic payload qos retain) cfg mac
              { pc := PublishPc.entry, net := s0, log := [] } pre).pc = PublishPc.wait
          ∧ connected (sys_run (net_mqtt_publish_blocking topic payload qos retain) cfg mac
              { pc := PublishPc.entry, net := s0, log := [] } pre).net = true) →
        ∃ (pre : List Sched) (ret : Int) (post : List Sched),
          sched ++ [x] = pre ++ Sched.task ret :: post
          ∧ (sys_run (net_mqtt_publish_blocking topic payload qos retain) cfg mac
              { pc := PublishPc.entry, net := s0, log := [] } pre).pc = PublishPc.wait
          ∧ connected (sys_run (net_mqtt_publish_blocking topic payload qos retain) cfg mac
              { pc := PublishPc.entry, net := s0, log := [] } pre).net = true := by
      rintro ⟨pre, ret, post, hsplit, hpc, hcon⟩
      exact ⟨pre, ret, post ++ [x], by rw [hsplit]; simp, hpc, hcon⟩
    rw [sys_run_snoc]
    generalize hgen : sys_run (net_mqtt_publish_blocking topic payload qos retain) cfg mac
      { pc := PublishPc.entry, net := s0, log := [] } sched = st at ih1 ih2 ih3 ⊢
    cases x with
    | mqtt_event event_id =>
      obtain ⟨hpc, hnet, hlog⟩ := sys_step_mqtt_event
        (net_mqtt_publish_blocking topic payload qos retain) cfg mac st event_id
      rw [hpc, hnet, hlog, (mqtt_event_handler_handles cfg mac event_id st.net).1]
      exact ⟨ih1, ih2, fun h => extend (ih3 h)⟩
    | wifi_event event_base event_id =>
      obtain ⟨hpc, hnet, hlog⟩ := sys_step_wifi_event
        (net_mqtt_publish_blocking topic payload qos retain) cfg mac st event_base event_id
      rw [hpc, hnet, hlog, (wifi_event_handler_handles event_base event_id st.net).1]
      exact ⟨ih1, ih2, fun h => extend (ih3 h)⟩
    | task ret =>
      obtain ⟨hpc, hnet, hlog⟩ := sys_step_task
        (net_mqtt_publish_blocking topic payload qos retain) cfg mac st ret
      rw [hpc, hnet, hlog, publish_step_net, ih2]
      refine ⟨ih1, ?_, ?_⟩
      · cases hst : st.pc with
        | entry => simp [net_mqtt_publish_blocking, ih1, publishCalls]
        | wait =>
          by_cases hcon : allBitsSet st.net.s_event_group MQTT_CONNECTED_BIT = true
          · simp [net_mqtt_publish_blocking, hcon, publishCalls]
          · simp [net_mqtt_publish_blocking, hcon, publishCalls]
        | send => simp [net_mqtt_publish_blocking, ih1, publishCalls]
        | returned rc => simp [net_mqtt_publish_blocking, publishCalls]
      · intro hrel
        cases hst : st.pc with
        | entry =>
          rw [hst] at hrel
          simp [net_mqtt_publish_blocking, ih1, PublishPc.released] at hrel
        | wait =>
          by_cases hcon : allBitsSet st.net.s_event_group MQTT_CONNECTED_BIT = true
          · exact ⟨sched, ret, [], rfl, by rw [hgen]; exact hst, by rw [hgen]; exact hcon⟩
          · rw [hst] at hrel
            simp [net_mqtt_publish_blocking, hcon, PublishPc.released] at hrel
        | send =>
          exact extend (ih3 (by rw [hst]; rfl))
        | returned rc =>
          exact extend (ih3 (by rw [hst]; rfl))

/-- C2, amended: a call of `net_mqtt_publish_blocking` on an existing
session, under every interleaving of session and link events. The call does
not come back from its wait, and so neither publishes nor returns, before a
step at which it finds the session-connected flag set; while it waits with the
flag clear, a step of it changes nothing. Once released it issues exactly one
publish attempt and returns, whatever that attempt returned: at every moment
the calls it has made are its wait alone, or, once it has returned, its wait
followed by that one publish. Between the release and the publish events
may clear the flag again: whatever the flags then are, and whatever events
come in between, the next step of the released call issues the publish with
the caller's arguments and returns. Every step of the call is given in full:
from its entry to the wait, from the wait with the flag set to the release,
from the release to the return, and no step once it has returned. -/
theorem C2_publish_blocking (topic payload : List Char) (qos : Int) (retain : Bool)
    (cfg : Config) (mac : Mac) (client : Nat) (s0 : NetState) (hs : s0.s_mqtt = some client) :
    (∀ sched : List Sched,
      callerCalls (sys_run (net_mqtt_publish_blocking topic payload qos retain) cfg mac
          { pc := PublishPc.entry, net := s0, log := [] } sched).log
        = publishCalls (some client) topic payload qos retain
            (sys_run (net_mqtt_publish_blocking topic payload qos retain) cfg mac
              { pc := PublishPc.entry, net := s0, log := [] } sched).pc
      ∧ ((sys_run (net_mqtt_publish_blocking topic payload qos retain) cfg mac
          { pc := PublishPc.entry, net := s0, log := [] } sched).pc.released = true →
        ∃ (pre : List Sched) (ret : Int) (post : List Sched),
          sched = pre ++ Sched.task ret :: post
          ∧ (sys_run (net_mqtt_publish_blocking topic payload qos retain) cfg mac
              { pc := PublishPc.entry, net := s0, log := [] } pre).pc = PublishPc.wait
          ∧ connected (sys_run (net_mqtt_publish_blocking topic payload qos retain) cfg mac
              { pc := PublishPc.entry, net := s0, log := [] } pre).net = true))
    ∧ (∀ (st : Sys PublishPc) (ret : Int),
      st.pc = PublishPc.wait → connected st.net = false →
      sys_step (net_mqtt_publish_blocking topic payload qos retain) cfg mac st (Sched.task ret)
        = st)
    ∧ (∀ (st : Sys PublishPc) (ret msg_id : Int),
      st.pc = PublishPc.wait → connected st.net = true →
      sys_run (net_mqtt_publish_blocking topic payload qos retain) cfg mac st
          [Sched.task ret, Sched.task msg_id]
        = { pc := PublishPc.returned (if msg_id ≥ 0 then ESP_OK else ESP_FAIL),
            net := st.net,
            log := st.log ++
              [(Origin.caller,
                Call.esp_mqtt_client_publish st.net.s_mqtt topic payload 0 qos retain)] })
    ∧ (∀ (st : Sys PublishPc) (ret : Int),
      st.pc = PublishPc.entry → st.net.s_mqtt ≠ none →
      sys_step (net_mqtt_publish_blocking topic payload qos retain) cfg mac st (Sched.task ret)
        = { pc := PublishPc.wait, net := st.net,
            log := st.log ++ [(Origin.caller, Call.xEventGroupWaitBits MQTT_CONNECTED_BIT)] })
    ∧ (∀ (st : Sys PublishPc) (ret : Int),
      st.pc = PublishPc.wait → connected st.net = true →
      sys_step (net_mqtt_publish_blocking topic payload qos retain) cfg mac st (Sched.task ret)
        = { pc := PublishPc.send, net := st.net, log := st.log })
    ∧ (∀ (st : Sys PublishPc) (msg_id : Int),
      st.pc = PublishPc.send →
      sys_step (net_mqtt_publish_blocking topic payload qos retain) cfg mac st
          (Sched.task msg_id)
        = { pc := PublishPc.returned (if msg_id ≥ 0 then ESP_OK else ESP_FAIL),
            net := st.net,
            log := st.log ++
              [(Origin.caller,
                Call.esp_mqtt_client_publish st.net.s_mqtt topic payload 0 qos retain)] })
    ∧ (∀ (st : Sys PublishPc) (rc ret : Int),
      st.pc = PublishPc.returned rc →
      sys_step (net_mqtt_publish_blocking topic payload qos retain) cfg mac st (Sched.task ret)
        = st)
    ∧ (∀ (st : Sys PublishPc) (events : List Sched) (msg_id : Int),
      st.pc = PublishPc.send →
      (∀ x ∈ events, ∀ ret : Int, x ≠ Sched.task ret) →
      (sys_run (net_mqtt_publish_blocking topic payload qos retain) cfg mac st
          (events ++ [Sched.task msg_id])).pc
        = PublishPc.returned (if msg_id ≥ 0 then ESP_OK else ESP_FAIL)
      ∧ callerCalls (sys_run (net_mqtt_publish_blocking topic payload qos retain) cfg mac st
          (events ++ [Sched.task msg_id])).log
        = callerCalls st.log
            ++ [Call.esp_mqtt_client_publish st.net.s_mqtt topic payload 0 qos retain]) := by
  refine ⟨?_, ?_, ?_, ?_, ?_, ?_, ?_, ?_⟩
  · intro sched
    exact (publish_run_inv topic payload qos retain cfg mac client s0 hs sched).2
  · intro st ret hpc hcon
    have hcon2 : allBitsSet st.net.s_event_group MQTT_CONNECTED_BIT = false := hcon
    cases st with
    | mk pc net log =>
      simp only at hpc hcon2
      subst hpc
      simp [sys_step, net_mqtt_publish_blocking, hcon2]
  · intro st ret msg_id hpc hcon
    have hcon2 : allBitsSet st.net.s_event_group MQTT_CONNECTED_BIT = true := hcon
    cases st with
    | mk pc net log =>
      simp only at hpc hcon2
      subst hpc
      simp [sys_run, sys_step, net_mqtt_publish_blocking, hcon2]
  · intro st ret hpc hses
    cases st with
    | mk pc net log =>
      simp only at hpc hses
      subst hpc
      simp [sys_step, net_mqtt_publish_blocking, hses]
  · intro st ret hpc hcon
    have hcon2 : allBitsSet st.net.s_event_group MQTT_CONNECTED_BIT = true := hcon
    cases st with
    | mk pc net log =>
      simp only at hpc hcon2
      subst hpc
      simp [sys_step, net_mqtt_publish_blocking, hcon2]
  · intro st msg_id hpc
    cases st with
    | mk pc net log =>
      simp only at hpc
      subst hpc
      simp [sys_step, net_mqtt_publish_blocking]
  · intro st rc ret hpc
    cases st with
    | mk pc net log =>
      simp only at hpc
      subst hpc
      simp [sys_step, net_mqtt_publish_blocking]
  · intro st events msg_id hpc hev
    obtain ⟨e1, e2, e3⟩ := sys_run_events
      (net_mqtt_publish_blocking topic payload qos retain) cfg mac events hev st
    rw [sys_run_append]
    obtain ⟨t1, _, t3⟩ := sys_step_task
      (net_mqtt_publish_blocking topic payload qos retain) cfg mac
      (sys_run (net_mqtt_publish_blocking topic payload qos retain) cfg mac st events) msg_id
    have hone : sys_run (net_mqtt_publish_blocking topic payload qos retain) cfg mac
        (sys_run (net_mqtt_publish_blocking topic payload qos retain) cfg mac st events)
        [Sched.task msg_id]
        = sys_step (net_mqtt_publish_blocking topic payload qos retain) cfg mac
            (sys_run (net_mqtt_publish_blocking topic payload qos retain) cfg mac st events)
            (Sched.task msg_id) := rfl
    rw [hone, t1, t3, e1, e3, hpc]
    simp [net_mqtt_publish_blocking, e2]

/-- C2 at a concrete input: session 1 exists and the flag is clear at the
call; the call waits, a connected event arrives, the call is released,
publishes once and returns. -/
theorem C2_publish_blocking_witness :
    ({ s_event_group := 0, s_mqtt := some 1, s_netif := none } : NetState).s_mqtt = some 1
    ∧ callerCalls (sys_run
          (net_mqtt_publish_blocking "home/sensor1/state".toList "21.49".toList 1 false)
          { CONFIG_DEVICE_NAME := [], CONFIG_MQTT_STATE_TOPIC := "home/sensor1/state".toList,
            CONFIG_HA_DISCOVERY_PREFIX := "homeassistant".toList,
            CONFIG_HA_DISCOVERY_ENABLE := false }
          (fun _ => 0)
          { pc := PublishPc.entry,
            net := { s_event_group := 0, s_mqtt := some 1, s_netif := none }, log := [] }
          [Sched.task 0, Sched.task 0, Sched.mqtt_event MQTT_EVENT_CONNECTED, Sched.task 0,
           Sched.task 5]).log
        = [Call.xEventGroupWaitBits MQTT_CONNECTED_BIT,
           Call.esp_mqtt_client_publish (some 1) "home/sensor1/state".toList "21.49".toList
             0 1 false] := by
  refine ⟨rfl, ?_⟩
  rw [((C2_publish_blocking "home/sensor1/state".toList "21.49".toList 1 false
    { CONFIG_DEVICE_NAME := [], CONFIG_MQTT_STATE_TOPIC := "home/sensor1/state".toList,
      CONFIG_HA_DISCOVERY_PREFIX := "homeassistant".toList,
      CONFIG_HA_DISCOVERY_ENABLE := false }
    (fun _ => 0) 1 { s_event_group := 0, s_mqtt := some 1, s_netif := none } rfl).1
    [Sched.task 0, Sched.task 0, Sched.mqtt_event MQTT_EVENT_CONNECTED, Sched.task 0,
     Sched.task 5]).1]
  decide

/-! ## Link initialisation -/

/-- The first step of `net_wifi_init_sta_blocking` when every guarded call
succeeds: all calls are made, each once, and the function waits for the lease. -/
theorem init_entry_ok (env : InitEnv) (s : NetState) (h : env.allOk = true) :
    net_wifi_init_sta_blocking env InitPc.entry s
      = (InitPc.wait, { s with s_netif := env.esp_netif_create_default_wifi_sta },
         init_calls) := by
  simp only [InitEnv.allOk, Bool.and_eq_true, decide_eq_true_eq] at h
  obtain ⟨⟨⟨⟨⟨⟨⟨⟨h1, h2⟩, h3⟩, h4⟩, h5⟩, h6⟩, h7⟩, h8⟩, h9⟩ := h
  simp [net_wifi_init_sta_blocking, h1, h2, h3, h4, h5, h6, h7, h8, h9, init_calls]

/-- The first step of `net_wifi_init_sta_blocking` when a guarded call
fails: the program aborts, having made the calls up to the failing one, each
once, and not the wait. -/
theorem init_entry_fail (env : InitEnv) (s : NetState) (h : env.allOk = false) :
    (net_wifi_init_sta_blocking env InitPc.entry s).1 = InitPc.aborted
    ∧ (net_wifi_init_sta_blocking env InitPc.entry s).2.2 <+: init_calls
    ∧ (net_wifi_init_sta_blocking env InitPc.entry s).2.2 ≠ []
    ∧ Call.xEventGroupWaitBits WIFI_GOT_IP_BIT
        ∉ (net_wifi_init_sta_blocking env InitPc.entry s).2.2 := by
  by_cases h1 : env.nvs_flash_init = ESP_OK
  swap
  · simp only [net_wifi_init_sta_blocking, h1, ne_eq, not_false_eq_true,
      if_true, not_true_eq_false, if_false, List.cons_append, List.nil_append]
    exact ⟨trivial, by decide, by decide, by decide⟩
  by_cases h2 : env.esp_netif_init = ESP_OK
  swap
  · simp only [net_wifi_init_sta_blocking, h1, h2, ne_eq, not_false_eq_true,
      if_true, not_true_eq_false, if_false, List.cons_append, List.nil_append]
    exact ⟨trivial, by decide, by decide, by decide⟩
  by_cases h3 : env.esp_event_loop_create_default = ESP_OK
  swap
  · simp only [net_wifi_init_sta_blocking, h1, h2, h3, ne_eq, not_false_eq_true,
      if_true, not_true_eq_false, if_false, List.cons_append, List.nil_append]
    exact ⟨trivial, by decide, by decide, by decide⟩
  by_cases h4 : env.esp_event_handler_register esp_event_base_t.WIFI_EVENT ESP_EVENT_ANY_ID = ESP_OK
  swap
  · simp only [net_wifi_init_sta_blocking, h1, h2, h3, h4, ne_eq, not_false_eq_true,
      if_true, not_true_eq_false, if_false, List.cons_append, List.nil_append]
    exact ⟨trivial, by decide, by decide, by decide⟩
  by_cases h5 : env.esp_event_handler_register esp_event_base_t.IP_EVENT IP_EVENT_STA_GOT_IP = ESP_OK
  swap
  · simp only [net_wifi_init_sta_blocking, h1, h2, h3, h4, h5, ne_eq, not_false_eq_true,
      if_true, not_true_eq_false, if_false, List.cons_append, List.nil_append]
    exact ⟨trivial, by decide, by decide, by decide⟩
  by_cases h6 : env.esp_wifi_init = ESP_OK
  swap
  · simp only [net_wifi_init_sta_blocking, h1, h2, h3, h4, h5, h6, ne_eq, not_false_eq_true,
      if_true, not_true_eq_false, if_false, List.cons_append, List.nil_append]
    exact ⟨trivial, by decide, by decide, by decide⟩
  by_cases h7 : env.esp_wifi_set_mode = ESP_OK
  swap
  · simp only [net_wifi_init_sta_blocking, h1, h2, h3, h4, h5, h6, h7, ne_eq, not_false_eq_true,
      if_true, not_true_eq_false, if_false, List.cons_append, List.nil_append]
    exact ⟨trivial, by decide, by decide, by decide⟩
  by_cases h8 : env.esp_wifi_set_config = ESP_OK
  swap
  · simp only [net_wifi_init_sta_blocking, h1, h2, h3, h4, h5, h6, h7, h8, ne_eq, not_false_eq_true,
      if_true, not_true_eq_false, if_false, List.cons_append, List.nil_append]
    exact ⟨trivial, by decide, by decide, by decide⟩
  by_cases h9 : env.esp_wifi_start = ESP_OK
  swap
  · simp only [net_wifi_init_sta_blocking, h1, h2, h3, h4, h5, h6, h7, h8, h9, ne_eq, not_false_eq_true,
      if_true, not_true_eq_false, if_false, List.cons_append, List.nil_append]
    exact ⟨trivial, by decide, by decide, by decide⟩
  · simp [InitEnv.allOk, h1, h2, h3, h4, h5, h6, h7, h8, h9] at h

/-- What holds of a call of `net_wifi_init_sta_blocking` after every
schedule: it has not started; or a guarded call failed and the program has
aborted, having made some first calls of the sequence and not the wait; or
every guarded call succeeded and it waits for the lease; or it has returned
`ESP_OK`, released by a step at which the address-acquired flag was set. -/
theorem init_run_inv (env : InitEnv) (cfg : Config) (mac : Mac) (s0 : NetState)
    (sched : List Sched) :
    ((sys_run (fun _ => net_wifi_init_sta_blocking env) cfg mac
          { pc := InitPc.entry, net := s0, log := [] } sched).pc = InitPc.entry
      ∧ callerCalls (sys_run (fun _ => net_wifi_init_sta_blocking env) cfg mac
          { pc := InitPc.entry, net := s0, log := [] } sched).log = [])
    ∨ ((sys_run (fun _ => net_wifi_init_sta_blocking env) cfg mac
          { pc := InitPc.entry, net := s0, log := [] } sched).pc = InitPc.aborted
      ∧ env.allOk = false
      ∧ callerCalls (sys_run (fun _ => net_wifi_init_sta_blocking env) cfg mac
          { pc := InitPc.entry, net := s0, log := [] } sched).log <+: init_calls
      ∧ Call.xEventGroupWaitBits WIFI_GOT_IP_BIT
          ∉ callerCalls (sys_run (fun _ => net_wifi_init_sta_blocking env) cfg mac
              { pc := InitPc.entry, net := s0, log := [] } sched).log)
    ∨ ((sys_run (fun _ => net_wifi_init_sta_blocking env) cfg mac
          { pc := InitPc.entry, net := s0, log := [] } sched).pc = InitPc.wait
      ∧ env.allOk = true
      ∧ callerCalls (sys_run (fun _ => net_wifi_init_sta_blocking env) cfg mac
          { pc := InitPc.entry, net := s0, log := [] } sched).log = init_calls)
    ∨ ((sys_run (fun _ => net_wifi_init_sta_blocking env) cfg mac
          { pc := InitPc.entry, net := s0, log := [] } sched).pc = InitPc.returned ESP_OK
      ∧ env.allOk = true
      ∧ callerCalls (sys_run (fun _ => net_wifi_init_sta_blocking env) cfg mac
          { pc := InitPc.entry, net := s0, log := [] } sched).log = init_calls
      ∧ ∃ (pre : List Sched) (ret : Int) (post : List Sched),
          sched = pre ++ Sched.task ret :: post
          ∧ (sys_run (fun _ => net_wifi_init_sta_blocking env) cfg mac
              { pc := InitPc.entry, net := s0, log := [] } pre).pc = InitPc.wait
          ∧ hasAddress (sys_run (fun _ => net_wifi_init_sta_blocking env) cfg mac
              { pc := InitPc.entry, net := s0, log := [] } pre).net = true) := by
  induction sched using List.reverseRecOn with
  | nil => exact Or.inl ⟨rfl, rfl⟩
  | append_singleton sched x ih =>
    have extend : (∃ (pre : List Sched) (ret : Int) (post : List Sched),
          sched = pre ++ Sched.task ret :: post
          ∧ (sys_run (fun _ => net_wifi_init_sta_blocking env) cfg mac
              { pc := InitPc.entry, net := s0, log := [] } pre).pc = InitPc.wait
          ∧ hasAddress (sys_run (fun _ => net_wifi_init_sta_blocking env) cfg mac
              { pc := InitPc.entry, net := s0, log := [] } pre).net = true) →
        ∃ (pre : List Sched) (ret : Int) (post : List Sched),
          sched ++ [x] = pre ++ Sched.task ret :: post
          ∧ (sys_run (fun _ => net_wifi_init_sta_blocking env) cfg mac
              { pc := InitPc.entry, net := s0, log := [] } pre).pc = InitPc.wait
          ∧ hasAddress (sys_run (fun _ => net_wifi_init_sta_blocking env) cfg mac
              { pc := InitPc.entry, net := s0, log := [] } pre).net = true := by
      rintro ⟨pre, ret, post, hsplit, hpc, hcon⟩
      exact ⟨pre, ret, post ++ [x], by rw [hsplit]; simp, hpc, hcon⟩
    rw [sys_run_snoc]
    generalize hgen : sys_run (fun _ => net_wifi_init_sta_blocking env) cfg mac
      { pc := InitPc.entry, net := s0, log := [] } sched = st at ih ⊢
    cases x with
    | mqtt_event event_id =>
      obtain ⟨hpc, _, hlog⟩ := sys_step_mqtt_event
        (fun _ => net_wifi_init_sta_blocking env) cfg mac st event_id
      rw [hpc, hlog]
      rcases ih with h | h | h | ⟨h1, h2, h3, h4⟩
      · exact Or.inl h
      · exact Or.inr (Or.inl h)
      · exact Or.inr (Or.inr (Or.inl h))
      · exact Or.inr (Or.inr (Or.inr ⟨h1, h2, h3, extend h4⟩))
    | wifi_event event_base event_id =>
      obtain ⟨hpc, _, hlog⟩ := sys_step_wifi_event
        (fun _ => net_wifi_init_sta_blocking env) cfg mac st event_base event_id
      rw [hpc, hlog]
      rcases ih with h | h | h | ⟨h1, h2, h3, h4⟩
      · exact Or.inl h
      · exact Or.inr (Or.inl h)
      · exact Or.inr (Or.inr (Or.inl h))
      · exact Or.inr (Or.inr (Or.inr ⟨h1, h2, h3, extend h4⟩))
    | task ret =>
      obtain ⟨hpc, _, hlog⟩ := sys_step_task
        (fun _ => net_wifi_init_sta_blocking env) cfg mac st ret
      rw [hpc, hlog]
      rcases ih with ⟨h1, h2⟩ | ⟨h1, h2, h3, h4⟩ | ⟨h1, h2, h3⟩ | ⟨h1, h2, h3, h4⟩
      · rw [h1, h2]
        cases hok : env.allOk with
        | true =>
          rw [init_entry_ok env st.net hok]
          exact Or.inr (Or.inr (Or.inl ⟨rfl, rfl, rfl⟩))
        | false =>
          obtain ⟨f1, f2, _, f4⟩ := init_entry_fail env st.net hok
          exact Or.inr (Or.inl ⟨f1, rfl, by simpa using f2, by simpa using f4⟩)
      · rw [h1]
        refine Or.inr (Or.inl ⟨rfl, h2, ?_, ?_⟩)
        · simpa [net_wifi_init_sta_blocking] using h3
        · simpa [net_wifi_init_sta_blocking] using h4
      · rw [h1, h3]
        by_cases had : allBitsSet st.net.s_event_group WIFI_GOT_IP_BIT = true
        · refine Or.inr (Or.inr (Or.inr ⟨?_, h2, ?_, sched, ret, [], rfl, ?_, ?_⟩))
          · simp [net_wifi_init_sta_blocking, had]
          · simp [net_wifi_init_sta_blocking, had]
          · rw [hgen]; exact h1
          · rw [hgen]; exact had
        · refine Or.inr (Or.inr (Or.inl ⟨?_, h2, ?_⟩))
          · simp [net_wifi_init_sta_blocking, had]
          · simp [net_wifi_init_sta_blocking, had]
      · rw [h1, h3]
        refine Or.inr (Or.inr (Or.inr ⟨?_, h2, ?_, extend h4⟩))
        · simp [net_wifi_init_sta_blocking]
        · simp [net_wifi_init_sta_blocking]

/-- The calls of the first step of `net_wifi_init_sta_blocking`, and where
that step ends, depend on what the platform returns and not on the state. -/
theorem init_entry_indep (env : InitEnv) (s t : NetState) :
    (net_wifi_init_sta_blocking env InitPc.entry s).1
      = (net_wifi_init_sta_blocking env InitPc.entry t).1
    ∧ (net_wifi_init_sta_blocking env InitPc.entry s).2.2
      = (net_wifi_init_sta_blocking env InitPc.entry t).2.2 := by
  by_cases h1 : env.nvs_flash_init = ESP_OK
  swap
  · simp only [net_wifi_init_sta_blocking, h1, ne_eq, not_false_eq_true,
      if_true, not_true_eq_false, if_false, List.cons_append, List.nil_append]
    exact ⟨trivial, trivial⟩
  by_cases h2 : env.esp_netif_init = ESP_OK
  swap
  · simp only [net_wifi_init_sta_blocking, h1, h2, ne_eq, not_false_eq_true,
      if_true, not_true_eq_false, if_false, List.cons_append, List.nil_append]
    exact ⟨trivial, trivial⟩
  by_cases h3 : env.esp_event_loop_create_default = ESP_OK
  swap
  · simp only [net_wifi_init_sta_blocking, h1, h2, h3, ne_eq, not_false_eq_true,
      if_true, not_true_eq_false, if_false, List.cons_append, List.nil_append]
    exact ⟨trivial, trivial⟩
  by_cases h4 : env.esp_event_handler_register esp_event_base_t.WIFI_EVENT ESP_EVENT_ANY_ID = ESP_OK
  swap
  · simp only [net_wifi_init_sta_blocking, h1, h2, h3, h4, ne_eq, not_false_eq_true,
      if_true, not_true_eq_false, if_false, List.cons_append, List.nil_append]
    exact ⟨trivial, trivial⟩
  by_cases h5 : env.esp_event_handler_register esp_event_base_t.IP_EVENT IP_EVENT_STA_GOT_IP = ESP_OK
  swap
  · simp only [net_wifi_init_sta_blocking, h1, h2, h3, h4, h5, ne_eq, not_false_eq_true,
      if_true, not_true_eq_false, if_false, List.cons_append, List.nil_append]
    exact ⟨trivial, trivial⟩
  by_cases h6 : env.esp_wifi_init = ESP_OK
  swap
  · simp only [net_wifi_init_sta_blocking, h1, h2, h3, h4, h5, h6, ne_eq, not_false_eq_true,
      if_true, not_true_eq_false, if_false, List.cons_append, List.nil_append]
    exact ⟨trivial, trivial⟩
  by_cases h7 : env.esp_wifi_set_mode = ESP_OK
  swap
  · simp only [net_wifi_init_sta_blocking, h1, h2, h3, h4, h5, h6, h7, ne_eq, not_false_eq_true,
      if_true, not_true_eq_false, if_false, List.cons_append, List.nil_append]
    exact ⟨trivial, trivial⟩
  by_cases h8 : env.esp_wifi_set_config = ESP_OK
  swap
  · simp only [net_wifi_init_sta_blocking, h1, h2, h3, h4, h5, h6, h7, h8, ne_eq, not_false_eq_true,
      if_true, not_true_eq_false, if_false, List.cons_append, List.nil_append]
    exact ⟨trivial, trivial⟩
  by_cases h9 : env.esp_wifi_start = ESP_OK
  swap
  · simp only [net_wifi_init_sta_blocking, h1, h2, h3, h4, h5, h6, h7, h8, h9, ne_eq, not_false_eq_true,
      if_true, not_true_eq_false, if_false, List.cons_append, List.nil_append]
    exact ⟨trivial, trivial⟩
  · simp only [net_wifi_init_sta_blocking, h1, h2, h3, h4, h5, h6, h7, h8, h9, ne_eq, not_false_eq_true,
      if_true, not_true_eq_false, if_false, List.cons_append, List.nil_append]
    exact ⟨trivial, trivial⟩

/-- After every schedule the calls the task has made are none, while it has
not started, and otherwise exactly the calls of its first step. -/
theorem init_run_calls (env : InitEnv) (cfg : Config) (mac : Mac) (s0 : NetState)
    (sched : List Sched) :
    ((sys_run (fun _ => net_wifi_init_sta_blocking env) cfg mac
          { pc := InitPc.entry, net := s0, log := [] } sched).pc = InitPc.entry
      ∧ callerCalls (sys_run (fun _ => net_wifi_init_sta_blocking env) cfg mac
          { pc := InitPc.entry, net := s0, log := [] } sched).log = [])
    ∨ ((sys_run (fun _ => net_wifi_init_sta_blocking env) cfg mac
          { pc := InitPc.entry, net := s0, log := [] } sched).pc ≠ InitPc.entry
      ∧ callerCalls (sys_run (fun _ => net_wifi_init_sta_blocking env) cfg mac
          { pc := InitPc.entry, net := s0, log := [] } sched).log
        = (net_wifi_init_sta_blocking env InitPc.entry s0).2.2) := by
  induction sched using List.reverseRecOn with
  | nil => exact Or.inl ⟨rfl, rfl⟩
  | append_singleton sched x ih =>
    rw [sys_run_snoc]
    generalize sys_run (fun _ => net_wifi_init_sta_blocking env) cfg mac
      { pc := InitPc.entry, net := s0, log := [] } sched = st at ih ⊢
    cases x with
    | mqtt_event event_id =>
      obtain ⟨hpc, _, hlog⟩ := sys_step_mqtt_event
        (fun _ => net_wifi_init_sta_blocking env) cfg mac st event_id
      rw [hpc, hlog]
      exact ih
    | wifi_event event_base event_id =>
      obtain ⟨hpc, _, hlog⟩ := sys_step_wifi_event
        (fun _ => net_wifi_init_sta_blocking env) cfg mac st event_base event_id
      rw [hpc, hlog]
      exact ih
    | task ret =>
      obtain ⟨hpc, _, hlog⟩ := sys_step_task
        (fun _ => net_wifi_init_sta_blocking env) cfg mac st ret
      rw [hpc, hlog]
      rcases ih with ⟨h1, h2⟩ | ⟨h1, h2⟩
      · refine Or.inr ⟨?_, ?_⟩
        · rw [h1]
          cases hok : env.allOk with
          | true => rw [init_entry_ok env st.net hok]; simp
          | false => rw [(init_entry_fail env st.net hok).1]; simp
        · rw [h1, h2, (init_entry_indep env st.net s0).2]
          simp
      · refine Or.inr ⟨?_, ?_⟩
        · cases hst : st.pc with
          | entry => exact absurd hst h1
          | wait =>
            by_cases had : allBitsSet st.net.s_event_group WIFI_GOT_IP_BIT = true
            · simp [net_wifi_init_sta_blocking, had]
            · simp [net_wifi_init_sta_blocking, had]
          | returned rc => simp [net_wifi_init_sta_blocking]
          | aborted => simp [net_wifi_init_sta_blocking]
        · rw [h2]
          cases hst : st.pc with
          | entry => exact absurd hst h1
          | wait =>
            by_cases had : allBitsSet st.net.s_event_group WIFI_GOT_IP_BIT = true
            · simp [net_wifi_init_sta_blocking, had]
            · simp [net_wifi_init_sta_blocking, had]
          | returned rc => simp [net_wifi_init_sta_blocking]
          | aborted => simp [net_wifi_init_sta_blocking]

/-- C6, as the claim words it, fails: when the driver start fails the
function does not return an error value. `ESP_ERROR_CHECK` aborts the program
in the first step: the calls up to the driver start have been made, the wait
has not, and after an address-acquired event and two more steps the call
still has not returned. -/
theorem C6_counterexample :
    (sys_run
        (fun _ => net_wifi_init_sta_blocking
          { nvs_flash_init := ESP_OK, esp_netif_init := ESP_OK,
            esp_event_loop_create_default := ESP_OK,
            esp_netif_create_default_wifi_sta := some 7,
            esp_event_handler_register := fun _ _ => ESP_OK,
            esp_wifi_init := ESP_OK, esp_wifi_set_mode := ESP_OK,
            esp_wifi_set_config := ESP_OK, esp_wifi_start := ESP_FAIL })
        { CONFIG_DEVICE_NAME := [], CONFIG_MQTT_STATE_TOPIC := "home/sensor1/state".toList,
          CONFIG_HA_DISCOVERY_PREFIX := "homeassistant".toList,
          CONFIG_HA_DISCOVERY_ENABLE := true }
        (fun _ => 0)
        { pc := InitPc.entry,
          net := { s_event_group := 0, s_mqtt := none, s_netif := none }, log := [] }
        [Sched.task 0, Sched.wifi_event esp_event_base_t.IP_EVENT IP_EVENT_STA_GOT_IP,
         Sched.task 0, Sched.task 0])
      = { pc := InitPc.aborted,
          net := { s_event_group := 1, s_mqtt := none, s_netif := some 7 },
          log := [(Origin.caller, Call.nvs_flash_init),
                  (Origin.caller, Call.esp_netif_init),
                  (Origin.caller, Call.esp_event_loop_create_default),
                  (Origin.caller, Call.esp_netif_create_default_wifi_sta),
                  (Origin.caller,
                   Call.esp_event_handler_register esp_event_base_t.WIFI_EVENT ESP_EVENT_ANY_ID),
                  (Origin.caller,
                   Call.esp_event_handler_register esp_event_base_t.IP_EVENT
                     IP_EVENT_STA_GOT_IP),
                  (Origin.caller, Call.esp_wifi_init),
                  (Origin.caller, Call.esp_wifi_set_mode),
                  (Origin.caller, Call.esp_wifi_set_config),
                  (Origin.caller, Call.esp_wifi_start),
                  (Origin.handler, Call.xEventGroupSetBits WIFI_GOT_IP_BIT)] }
    ∧ hasAddress { s_event_group := 1, s_mqtt := none, s_netif := some 7 } = true := by
  refine ⟨?_, ?_⟩
  · decide
  · decide

/-- C6, amended: `net_wifi_init_sta_blocking` under every interleaving
with session and link events. It never returns an error value: if it has
returned, the value is `ESP_OK`, every call guarded by `ESP_ERROR_CHECK`
succeeded, and the step that released it found the address-acquired flag set.
If a guarded call fails, the first step of the function aborts the program
at the first call that fails: for each of the nine guarded calls, when the
calls before it succeed and it fails, the function has made exactly the calls
of its sequence up to and including that one, each once, and none after it;
the program stays aborted, and after every schedule the calls made are still
exactly those, so nothing is retried and the wait for the address lease is
never made. If every guarded call succeeds, the
function makes each call of the sequence once and then waits; a step while it
waits returns `ESP_OK` when the flag is set and changes nothing when it is
clear. -/
theorem C6_init_sta_blocking (env : InitEnv) (cfg : Config) (mac : Mac) (s0 : NetState) :
    (∀ (sched : List Sched) (rc : Int),
      (sys_run (fun _ => net_wifi_init_sta_blocking env) cfg mac
          { pc := InitPc.entry, net := s0, log := [] } sched).pc = InitPc.returned rc →
      rc = ESP_OK ∧ env.allOk = true
      ∧ ∃ (pre : List Sched) (ret : Int) (post : List Sched),
          sched = pre ++ Sched.task ret :: post
          ∧ (sys_run (fun _ => net_wifi_init_sta_blocking env) cfg mac
              { pc := InitPc.entry, net := s0, log := [] } pre).pc = InitPc.wait
          ∧ hasAddress (sys_run (fun _ => net_wifi_init_sta_blocking env) cfg mac
              { pc := InitPc.entry, net := s0, log := [] } pre).net = true)
    ∧ (env.allOk = false → ∀ sched : List Sched,
      ((sys_run (fun _ => net_wifi_init_sta_blocking env) cfg mac
          { pc := InitPc.entry, net := s0, log := [] } sched).pc = InitPc.entry
        ∨ (sys_run (fun _ => net_wifi_init_sta_blocking env) cfg mac
          { pc := InitPc.entry, net := s0, log := [] } sched).pc = InitPc.aborted)
      ∧ callerCalls (sys_run (fun _ => net_wifi_init_sta_blocking env) cfg mac
          { pc := InitPc.entry, net := s0, log := [] } sched).log <+: init_calls
      ∧ Call.xEventGroupWaitBits WIFI_GOT_IP_BIT
          ∉ callerCalls (sys_run (fun _ => net_wifi_init_sta_blocking env) cfg mac
              { pc := InitPc.entry, net := s0, log := [] } sched).log)
    ∧ (env.allOk = false → ∀ s : NetState,
      (net_wifi_init_sta_blocking env InitPc.entry s).1 = InitPc.aborted)
    ∧ (∀ s : NetState,
      net_wifi_init_sta_blocking env InitPc.aborted s = (InitPc.aborted, s, []))
    ∧ (env.allOk = true → ∀ s : NetState,
      net_wifi_init_sta_blocking env InitPc.entry s
        = (InitPc.wait, { s with s_netif := env.esp_netif_create_default_wifi_sta },
           init_calls))
    ∧ (∀ s : NetState, hasAddress s = true →
      net_wifi_init_sta_blocking env InitPc.wait s = (InitPc.returned ESP_OK, s, []))
    ∧ (∀ s : NetState, hasAddress s = false →
      net_wifi_init_sta_blocking env InitPc.wait s = (InitPc.wait, s, []))
    ∧ init_calls.Nodup
    ∧ (∀ s : NetState,
      env.nvs_flash_init ≠ ESP_OK →
      net_wifi_init_sta_blocking env InitPc.entry s
        = (InitPc.aborted, s,
           [Call.nvs_flash_init]))
    ∧ (∀ s : NetState,
      env.nvs_flash_init = ESP_OK →
      env.esp_netif_init ≠ ESP_OK →
      net_wifi_init_sta_blocking env InitPc.entry s
        = (InitPc.aborted, s,
           [Call.nvs_flash_init,
            Call.esp_netif_init]))
    ∧ (∀ s : NetState,
      env.nvs_flash_init = ESP_OK →
      env.esp_netif_init = ESP_OK →
      env.esp_event_loop_create_default ≠ ESP_OK →
      net_wifi_init_sta_blocking env InitPc.entry s
        = (InitPc.aborted, s,
           [Call.nvs_flash_init,
            Call.esp_netif_init,
            Call.esp_event_loop_create_default]))
    ∧ (∀ s : NetState,
      env.nvs_flash_init = ESP_OK →
      env.esp_netif_init = ESP_OK →
      env.esp_event_loop_create_default = ESP_OK →
      env.esp_event_handler_register esp_event_base_t.WIFI_EVENT ESP_EVENT_ANY_ID ≠ ESP_OK →
      net_wifi_init_sta_blocking env InitPc.entry s
        = (InitPc.aborted, { s with s_netif := env.esp_netif_create_default_wifi_sta },
           [Call.nvs_flash_init,
            Call.esp_netif_init,
            Call.esp_event_loop_create_default,
            Call.esp_netif_create_default_wifi_sta,
            Call.esp_event_handler_register esp_event_base_t.WIFI_EVENT ESP_EVENT_ANY_ID]))
    ∧ (∀ s : NetState,
      env.nvs_flash_init = ESP_OK →
      env.esp_netif_init = ESP_OK →
      env.esp_event_loop_create_default = ESP_OK →
      env.esp_event_handler_register esp_event_base_t.WIFI_EVENT ESP_EVENT_ANY_ID = ESP_OK →
      env.esp_event_handler_register esp_event_base_t.IP_EVENT IP_EVENT_STA_GOT_IP ≠ ESP_OK →
      net_wifi_init_sta_blocking env InitPc.entry s
        = (InitPc.aborted, { s with s_netif := env.esp_netif_create_default_wifi_sta },
           [Call.nvs_flash_init,
            Call.esp_netif_init,
            Call.esp_event_loop_create_default,
            Call.esp_netif_create_default_wifi_sta,
            Call.esp_event_handler_register esp_event_base_t.WIFI_EVENT ESP_EVENT_ANY_ID,
            Call.esp_event_handler_register esp_event_base_t.IP_EVENT IP_EVENT_STA_GOT_IP]))
    ∧ (∀ s : NetState,
      env.nvs_flash_init = ESP_OK →
      env.esp_netif_init = ESP_OK →
      env.esp_event_loop_create_default = ESP_OK →
      env.esp_event_handler_register esp_event_base_t.WIFI_EVENT ESP_EVENT_ANY_ID = ESP_OK →
      env.esp_event_handler_register esp_event_base_t.IP_EVENT IP_EVENT_STA_GOT_IP = ESP_OK →
      env.esp_wifi_init ≠ ESP_OK →
      net_wifi_init_sta_blocking env InitPc.entry s
        = (InitPc.aborted, { s with s_netif := env.esp_netif_create_default_wifi_sta },
           [Call.nvs_flash_init,
            Call.esp_netif_init,
            Call.esp_event_loop_create_default,
            Call.esp_netif_create_default_wifi_sta,
            Call.esp_event_handler_register esp_event_base_t.WIFI_EVENT ESP_EVENT_ANY_ID,
            Call.esp_event_handler_register esp_event_base_t.IP_EVENT IP_EVENT_STA_GOT_IP,
            Call.esp_wifi_init]))
    ∧ (∀ s : NetState,
      env.nvs_flash_init = ESP_OK →
      env.esp_netif_init = ESP_OK →
      env.esp_event_loop_create_default = ESP_OK →
      env.esp_event_handler_register esp_event_base_t.WIFI_EVENT ESP_EVENT_ANY_ID = ESP_OK →
      env.esp_event_handler_register esp_event_base_t.IP_EVENT IP_EVENT_STA_GOT_IP = ESP_OK →
      env.esp_wifi_init = ESP_OK →
      env.esp_wifi_set_mode ≠ ESP_OK →
      net_wifi_init_sta_blocking env InitPc.entry s
        = (InitPc.aborted, { s with s_netif := env.esp_netif_create_default_wifi_sta },
           [Call.nvs_flash_init,
            Call.esp_netif_init,
            Call.esp_event_loop_create_default,
            Call.esp_netif_create_default_wifi_sta,
            Call.esp_event_handler_register esp_event_base_t.WIFI_EVENT ESP_EVENT_ANY_ID,
            Call.esp_event_handler_register esp_event_base_t.IP_EVENT IP_EVENT_STA_GOT_IP,
            Call.esp_wifi_init,
            Call.esp_wifi_set_mode]))
    ∧ (∀ s : NetState,
      env.nvs_flash_init = ESP_OK →
      env.esp_netif_init = ESP_OK →
      env.esp_event_loop_create_default = ESP_OK →
      env.esp_event_handler_register esp_event_base_t.WIFI_EVENT ESP_EVENT_ANY_ID = ESP_OK →
      env.esp_event_handler_register esp_event_base_t.IP_EVENT IP_EVENT_STA_GOT_IP = ESP_OK →
      env.esp_wifi_init = ESP_OK →
      env.esp_wifi_set_mode = ESP_OK →
      env.esp_wifi_set_config ≠ ESP_OK →
      net_wifi_init_sta_blocking env InitPc.entry s
        = (InitPc.aborted, { s with s_netif := env.esp_netif_create_default_wifi_sta },
           [Call.nvs_flash_init,
            Call.esp_netif_init,
            Call.esp_event_loop_create_default,
            Call.esp_netif_create_default_wifi_sta,
            Call.esp_event_handler_register esp_event_base_t.WIFI_EVENT ESP_EVENT_ANY_ID,
            Call.esp_event_handler_register esp_event_base_t.IP_EVENT IP_EVENT_STA_GOT_IP,
            Call.esp_wifi_init,
            Call.esp_wifi_set_mode,
            Call.esp_wifi_set_config]))
    ∧ (∀ s : NetState,
      env.nvs_flash_init = ESP_OK →
      env.esp_netif_init = ESP_OK →
      env.esp_event_loop_create_default = ESP_OK →
      env.esp_event_handler_register esp_event_base_t.WIFI_EVENT ESP_EVENT_ANY_ID = ESP_OK →
      env.esp_event_handler_register esp_event_base_t.IP_EVENT IP_EVENT_STA_GOT_IP = ESP_OK →
      env.esp_wifi_init = ESP_OK →
      env.esp_wifi_set_mode = ESP_OK →
      env.esp_wifi_set_config = ESP_OK →
      env.esp_wifi_start ≠ ESP_OK →
      net_wifi_init_sta_blocking env InitPc.entry s
        = (InitPc.aborted, { s with s_netif := env.esp_netif_create_default_wifi_sta },
           [Call.nvs_flash_init,
            Call.esp_netif_init,
            Call.esp_event_loop_create_default,
            Call.esp_netif_create_default_wifi_sta,
            Call.esp_event_handler_register esp_event_base_t.WIFI_EVENT ESP_EVENT_ANY_ID,
            Call.esp_event_handler_register esp_event_base_t.IP_EVENT IP_EVENT_STA_GOT_IP,
            Call.esp_wifi_init,
            Call.esp_wifi_set_mode,
            Call.esp_wifi_set_config,
            Call.esp_wifi_start]))
    ∧ (env.allOk = false → ∀ sched : List Sched,
      (sys_run (fun _ => net_wifi_init_sta_blocking env) cfg mac
          { pc := InitPc.entry, net := s0, log := [] } sched).pc = InitPc.aborted →
      callerCalls (sys_run (fun _ => net_wifi_init_sta_blocking env) cfg mac
          { pc := InitPc.entry, net := s0, log := [] } sched).log
        = (net_wifi_init_sta_blocking env InitPc.entry s0).2.2)
    ∧ (∀ (s : NetState) (rc : Int),
      net_wifi_init_sta_blocking env (InitPc.returned rc) s = (InitPc.returned rc, s, [])) := by
  refine ⟨?_, ?_, ?_, ?_, ?_, ?_, ?_, ?_, ?_, ?_, ?_, ?_, ?_, ?_, ?_, ?_, ?_, ?_, ?_⟩
  · intro sched rc hrc
    rcases init_run_inv env cfg mac s0 sched with
      ⟨h1, _⟩ | ⟨h1, _⟩ | ⟨h1, _⟩ | ⟨h1, h2, _, h4⟩
    · rw [h1] at hrc; exact absurd hrc (by simp)
    · rw [h1] at hrc; exact absurd hrc (by simp)
    · rw [h1] at hrc; exact absurd hrc (by simp)
    · rw [h1] at hrc
      injection hrc with hrc
      exact ⟨hrc.symm, h2, h4⟩
  · intro hfail sched
    rcases init_run_inv env cfg mac s0 sched with
      ⟨h1, h2⟩ | ⟨h1, _, h3, h4⟩ | ⟨_, h2, _⟩ | ⟨_, h2, _⟩
    · rw [h2]
      exact ⟨Or.inl h1, List.nil_prefix, by simp⟩
    · exact ⟨Or.inr h1, h3, h4⟩
    · rw [hfail] at h2; exact absurd h2 (by simp)
    · rw [hfail] at h2; exact absurd h2 (by simp)
  · intro hfail s
    exact (init_entry_fail env s hfail).1
  · intro s
    simp [net_wifi_init_sta_blocking]
  · intro hok s
    exact init_entry_ok env s hok
  · intro s had
    have had2 : allBitsSet s.s_event_group WIFI_GOT_IP_BIT = true := had
    simp [net_wifi_init_sta_blocking, had2]
  · intro s had
    have had2 : allBitsSet s.s_event_group WIFI_GOT_IP_BIT = false := had
    simp [net_wifi_init_sta_blocking, had2]
  · decide
  · intro s g1
    simp [net_wifi_init_sta_blocking, g1]
  · intro s g1 g2
    simp [net_wifi_init_sta_blocking, g1, g2]
  · intro s g1 g2 g3
    simp [net_wifi_init_sta_blocking, g1, g2, g3]
  · intro s g1 g2 g3 g4
    simp [net_wifi_init_sta_blocking, g1, g2, g3, g4]
  · intro s g1 g2 g3 g4 g5
    simp [net_wifi_init_sta_blocking, g1, g2, g3, g4, g5]
  · intro s g1 g2 g3 g4 g5 g6
    simp [net_wifi_init_sta_blocking, g1, g2, g3, g4, g5, g6]
  · intro s g1 g2 g3 g4 g5 g6 g7
    simp [net_wifi_init_sta_blocking, g1, g2, g3, g4, g5, g6, g7]
  · intro s g1 g2 g3 g4 g5 g6 g7 g8
    simp [net_wifi_init_sta_blocking, g1, g2, g3, g4, g5, g6, g7, g8]
  · intro s g1 g2 g3 g4 g5 g6 g7 g8 g9
    simp [net_wifi_init_sta_blocking, g1, g2, g3, g4, g5, g6, g7, g8, g9]
  · intro _ sched hpc
    rcases init_run_calls env cfg mac s0 sched with ⟨h1, _⟩ | ⟨_, h2⟩
    · rw [h1] at hpc; exact absurd hpc (by simp)
    · exact h2
  · intro s rc
    simp [net_wifi_init_sta_blocking]

/-- C6 at a concrete input: every guarded call succeeds; the call makes its
calls, waits, an address-acquired event arrives, and the call returns, so the
value it returned is `ESP_OK`. -/
theorem C6_init_sta_blocking_witness :
    (sys_run
        (fun _ => net_wifi_init_sta_blocking
          { nvs_flash_init := ESP_OK, esp_netif_init := ESP_OK,
            esp_event_loop_create_default := ESP_OK,
            esp_netif_create_default_wifi_sta := some 7,
            esp_event_handler_register := fun _ _ => ESP_OK,
            esp_wifi_init := ESP_OK, esp_wifi_set_mode := ESP_OK,
            esp_wifi_set_config := ESP_OK, esp_wifi_start := ESP_OK })
        { CONFIG_DEVICE_NAME := [], CONFIG_MQTT_STATE_TOPIC := "home/sensor1/state".toList,
          CONFIG_HA_DISCOVERY_PREFIX := "homeassistant".toList,
          CONFIG_HA_DISCOVERY_ENABLE := true }
        (fun _ => 0)
        { pc := InitPc.entry,
          net := { s_event_group := 0, s_mqtt := none, s_netif := none }, log := [] }
        [Sched.task 0, Sched.wifi_event esp_event_base_t.WIFI_EVENT WIFI_EVENT_STA_START,
         Sched.task 0, Sched.wifi_event esp_event_base_t.IP_EVENT IP_EVENT_STA_GOT_IP,
         Sched.task 0]).pc = InitPc.returned 0
    ∧ (0 : Int) = ESP_OK :=
  ⟨by decide,
   ((C6_init_sta_blocking
      { nvs_flash_init := ESP_OK, esp_netif_init := ESP_OK,
        esp_event_loop_create_default := ESP_OK,
        esp_netif_create_default_wifi_sta := some 7,
        esp_event_handler_register := fun _ _ => ESP_OK,
        esp_wifi_init := ESP_OK, esp_wifi_set_mode := ESP_OK,
        esp_wifi_set_config := ESP_OK, esp_wifi_start := ESP_OK }
      { CONFIG_DEVICE_NAME := [], CONFIG_MQTT_STATE_TOPIC := "home/sensor1/state".toList,
        CONFIG_HA_DISCOVERY_PREFIX := "homeassistant".toList,
        CONFIG_HA_DISCOVERY_ENABLE := true }
      (fun _ => 0)
      { s_event_group := 0, s_mqtt := none, s_netif := none }).1
      [Sched.task 0, Sched.wifi_event esp_event_base_t.WIFI_EVENT WIFI_EVENT_STA_START,
       Sched.task 0, Sched.wifi_event esp_event_base_t.IP_EVENT IP_EVENT_STA_GOT_IP,
       Sched.task 0] 0 (by decide)).1⟩

end NetMqtt
